import Mathlib

/-!
Verification of the NEMU RISC-V privileged core (riscv64), shallowly embedded
from src/isa/riscv64/system/mmu.c, src/isa/riscv64/system/intr.c and
src/isa/riscv64/include/isa-def.h.

Configuration embedded (the conditional-compilation choices the claims are
about): CONFIG_RVH on, CONFIG_RV_SV48 on, CONFIG_RV_PMP_CHECK on,
CONFIG_TVAL_EX_II on, CONFIG_RV_SSCOFPMF on; CONFIG_SHARE off,
CONFIG_MULTICORE_DIFF off, CONFIG_USE_XS_ARCH_CSRS off,
CONFIG_PMPTABLE_EXTENSION off, CONFIG_RV_SDTRIG off, CONFIG_RV_MBMC off,
CONFIG_AC_SOFT on, CONFIG_DIFFTEST_REF_SPIKE off, FORCE_RAISE_PF on
(it is unconditionally defined in isa-def.h).

Machine integers are embedded as Nat with explicit reduction modulo 2 ^ 64
where overflow can occur.  The non-local longjmp_exception abort is embedded
as the error case of Except, carrying the exception cause together with the
architectural state as mutated up to the raise point.  Physical memory read
during page walks (paddr_read of an 8-byte entry) is a pure function from
physical address to 64-bit value.
-/

/-- Privilege levels, from the enum in isa-def.h. -/
def MODE_U : Nat := 0

/-- Supervisor mode, from the enum in isa-def.h. -/
def MODE_S : Nat := 1

/-- Reserved mode, from the enum in isa-def.h. -/
def MODE_RS : Nat := 2

/-- Machine mode, from the enum in isa-def.h. -/
def MODE_M : Nat := 3

/-- Modelled from the spec: access types of a translation request
(instruction-fetch, read, write); the enum lives in a memory header that is
not part of the given sources.  The values 0,1,2 are fixed by the
force_raise_pf_record arrays of size 3 indexed by type in mmu.c. -/
def MEM_TYPE_IFETCH : Nat := 0

/-- Modelled from the spec: read access type (see MEM_TYPE_IFETCH). -/
def MEM_TYPE_READ : Nat := 1

/-- Modelled from the spec: write access type (see MEM_TYPE_IFETCH). -/
def MEM_TYPE_WRITE : Nat := 2

/-- Modelled from the spec: RISC-V exception cause numbers used by the core;
the EX_* constants live in a local header not part of the given sources and
follow the RISC-V privileged specification cause encoding the spec says the
CSRs must remain bit-compatible with. -/
def EX_IAM : Nat := 0

/-- Instruction access fault cause (see EX_IAM). -/
def EX_IAF : Nat := 1

/-- Illegal instruction cause (see EX_IAM). -/
def EX_II : Nat := 2

/-- Breakpoint cause (see EX_IAM). -/
def EX_BP : Nat := 3

/-- Load address misaligned cause (see EX_IAM). -/
def EX_LAM : Nat := 4

/-- Load access fault cause (see EX_IAM). -/
def EX_LAF : Nat := 5

/-- Store address misaligned cause (see EX_IAM). -/
def EX_SAM : Nat := 6

/-- Store access fault cause (see EX_IAM). -/
def EX_SAF : Nat := 7

/-- Instruction page fault cause (see EX_IAM). -/
def EX_IPF : Nat := 12

/-- Load page fault cause (see EX_IAM). -/
def EX_LPF : Nat := 13

/-- Store page fault cause (see EX_IAM). -/
def EX_SPF : Nat := 15

/-- Instruction guest-page fault cause (see EX_IAM). -/
def EX_IGPF : Nat := 20

/-- Load guest-page fault cause (see EX_IAM). -/
def EX_LGPF : Nat := 21

/-- Virtual instruction cause (see EX_IAM). -/
def EX_VI : Nat := 22

/-- Store guest-page fault cause (see EX_IAM). -/
def EX_SGPF : Nat := 23

/-- Modelled from the spec: the interrupt tag bit of a cause word (bit 63 of
the 64-bit cause), from a local header not part of the given sources. -/
def INTR_BIT : Nat := 2 ^ 63

/-- Modelled from the spec: the sentinel empty value returned by the
interrupt query when no pending cause exists (all-ones word), from a local
header not part of the given sources. -/
def INTR_EMPTY : Nat := 2 ^ 64 - 1

/-- Modelled from the spec: the distinguished translation results MEM_RET_OK,
MEM_RET_FAIL and MEM_RET_CROSS_PAGE from the memory header not part of the
given sources.  MEM_RET_OK must be 0 because ptw returns the page-aligned
base or-ed with it. -/
def MEM_RET_OK : Nat := 0

/-- Distinguished failure value (see MEM_RET_OK). -/
def MEM_RET_FAIL : Nat := 1

/-- Distinguished cross-page value (see MEM_RET_OK). -/
def MEM_RET_CROSS_PAGE : Nat := 2

/-- Page offset mask, 2 ^ 12 - 1 (PAGE_MASK of the memory headers, matching
PGMASK in mmu.c). -/
def PAGE_MASK : Nat := 2 ^ 12 - 1

/-- Page size, 4096 bytes. -/
def PAGE_SIZE : Nat := 2 ^ 12

/-- MMU state enumeration value for direct (untranslated) access, from the
MMU_DIRECT enum of a header not part of the given sources; its value 0 is
fixed by the boolean uses (h_mmu_state ? ... : ...) in mmu.c. -/
def MMU_DIRECT : Nat := 0

/-- MMU state enumeration value for translated access (see MMU_DIRECT). -/
def MMU_TRANSLATE : Nat := 1

/-- The all-ones 64-bit word. -/
def WORD_MASK : Nat := 2 ^ 64 - 1

/-- Bitwise complement on 64-bit words. -/
def wnot (x : Nat) : Nat := x ^^^ WORD_MASK

/-- PTE valid bit (bit 0 of the PageTableEntry union in mmu.c). -/
def pte_v (p : Nat) : Bool := p.testBit 0

/-- PTE read bit (bit 1). -/
def pte_r (p : Nat) : Bool := p.testBit 1

/-- PTE write bit (bit 2). -/
def pte_w (p : Nat) : Bool := p.testBit 2

/-- PTE execute bit (bit 3). -/
def pte_x (p : Nat) : Bool := p.testBit 3

/-- PTE user bit (bit 4). -/
def pte_u (p : Nat) : Bool := p.testBit 4

/-- PTE global bit (bit 5). -/
def pte_g (p : Nat) : Bool := p.testBit 5

/-- PTE accessed bit (bit 6). -/
def pte_a (p : Nat) : Bool := p.testBit 6

/-- PTE dirty bit (bit 7). -/
def pte_d (p : Nat) : Bool := p.testBit 7

/-- PTE physical page number, the 44-bit field at bits 10..53. -/
def pte_ppn (p : Nat) : Nat := (p >>> 10) % 2 ^ 44

/-- PTE pad field, the 10-bit field at bits 54..63. -/
def pte_pad (p : Nat) : Nat := (p >>> 54) % 2 ^ 10

/-- The mstatus fields read or written by this core (mmu.c and intr.c). -/
structure MStatus where
  mprv : Bool
  mpp : Nat
  mpv : Bool
  sum : Bool
  mxr : Bool
  sie : Bool
  spie : Bool
  spp : Nat
  mie : Bool
  mpie : Bool
  gva : Bool
  deriving Repr

/-- The vsstatus fields read or written by this core. -/
structure VSStatus where
  sum : Bool
  mxr : Bool
  sie : Bool
  spie : Bool
  spp : Nat
  deriving Repr

/-- The hstatus fields read or written by this core. -/
structure HStatus where
  gva : Bool
  spv : Bool
  spvp : Nat
  deriving Repr

/-- A satp-family register (satp, vsatp, hgatp): translation mode field and
root physical page number. -/
structure SatpReg where
  mode : Nat
  ppn : Nat
  deriving Repr

/-- The execution-guide record supplied by the difftest harness
(struct ExecutionGuide in isa-def.h, CONFIG_RVH fields included). -/
structure ExecutionGuide where
  force_raise_exception : Bool
  exception_num : Nat
  mtval : Nat
  stval : Nat
  mtval2 : Nat
  htval : Nat
  vstval : Nat
  deriving Repr

/-- The architectural and global state this core reads and mutates: the
cpu fields of riscv64_CPU_state (isa-def.h) used by mmu.c and intr.c, the
CSRs they access, the file-scope globals of mmu.c (hlvx, hld_st, pt_level,
the three mmu-state cache variables, and the force_raise static counters,
embedded as explicit state), and the PMP configuration and address registers
read through pmpcfg_from_index and pmpaddr_from_index. -/
structure CPUState where
  mode : Nat
  v : Bool
  amo : Bool
  instr : Nat
  guided_exec : Bool
  execution_guide : ExecutionGuide
  mstatus : MStatus
  vsstatus : VSStatus
  hstatus : HStatus
  satp : SatpReg
  vsatp : SatpReg
  hgatp : SatpReg
  medeleg : Nat
  mideleg : Nat
  hedeleg : Nat
  hideleg : Nat
  mie : Nat
  mip : Nat
  mtval : Nat
  stval : Nat
  vstval : Nat
  htval : Nat
  mtval2 : Nat
  mcause : Nat
  scause : Nat
  vscause : Nat
  mepc : Nat
  sepc : Nat
  vsepc : Nat
  mtvec : Nat
  stvec : Nat
  vstvec : Nat
  htinst : Nat
  mtinst : Nat
  hld_st : Bool
  hlvx : Bool
  pt_level : Nat
  ifetch_mmu_state : Nat
  data_mmu_state : Nat
  h_mmu_state : Nat
  pmpaddr : Nat → Nat
  pmpcfg : Nat → Nat
  force_last_addr : Nat → Nat
  force_count : Nat → Nat
  g_force_last_addr : Nat → Nat
  g_force_count : Nat → Nat

/-- intr_deleg_S from intr.c (CONFIG_RVH variant): the cause bit is set in
mideleg (interrupts) or medeleg (exceptions) and the current mode is below
machine mode.  The C shift (1 << (exceptionNO & 0xff)) is embedded as a test
of bit (exceptionNO % 256) of the delegation register. -/
def intr_deleg_S (st : CPUState) (exceptionNO : Nat) : Bool :=
  let deleg := if exceptionNO.testBit 63 then st.mideleg else st.medeleg
  deleg.testBit (exceptionNO % 256) && decide (st.mode < MODE_M)

/-- intr_deleg_VS from intr.c: additionally the cause bit is set in hideleg
or hedeleg, guest mode is active, and the current mode is below machine. -/
def intr_deleg_VS (st : CPUState) (exceptionNO : Nat) : Bool :=
  let delegS := intr_deleg_S st exceptionNO
  let deleg := if exceptionNO.testBit 63 then st.hideleg else st.hedeleg
  let delegVS := st.v && deleg.testBit (exceptionNO % 256)
                      && decide (st.mode < MODE_M)
  delegS && delegVS

/-- Modelled from the spec: the INTR_TVAL_REG macro of the local intr.h
header (not part of the given sources) selects the trap-value register of
the chosen delegation target, per section 4.1 of the spec: vstval when the
cause is delegated down to virtual supervisor, stval when delegated to
supervisor, mtval otherwise.  This embeds an assignment through the macro. -/
def intr_tval_write (st : CPUState) (ex : Nat) (tval : Nat) : CPUState :=
  if intr_deleg_VS st ex then { st with vstval := tval }
  else if intr_deleg_S st ex then { st with stval := tval }
  else { st with mtval := tval }

/-- check_permission from mmu.c (CONFIG_RVH variant, CONFIG_SHARE off so the
update_ad flags are false).  Returns unit on success; a permission failure
sets the trap value register through INTR_TVAL_REG, clears cpu.amo on the
load/store paths, and raises the page-fault cause via longjmp_exception,
embedded as the Except error case. -/
def check_permission (st : CPUState) (pte : Nat) (ok0 : Bool) (vaddr : Nat)
    (ty : Nat) (virt : Bool) (mode : Nat) : Except (Nat × CPUState) Unit :=
  let ifetch := ty == MEM_TYPE_IFETCH
  let ok := ok0 && pte_v pte
  let ok := ok && !(decide (mode = MODE_U) && !pte_u pte)
  let ok := ok && !(pte_u pte && (decide (mode = MODE_S) &&
              (!(if virt then st.vsstatus.sum else st.mstatus.sum) || ifetch)))
  if ifetch then
    if !(ok && pte_x pte && decide (pte_pad pte = 0)) then
      Except.error (EX_IPF, intr_tval_write st EX_IPF vaddr)
    else Except.ok ()
  else if ty == MEM_TYPE_READ then
    let can_load := if st.hlvx then pte_x pte
      else pte_r pte || ((st.mstatus.mxr || (st.vsstatus.mxr && virt)) && pte_x pte)
    if !(ok && can_load && decide (pte_pad pte = 0)) then
      let ex := if st.amo then EX_SPF else EX_LPF
      Except.error (ex, { intr_tval_write st ex vaddr with amo := false })
    else Except.ok ()
  else
    if !(ok && pte_w pte && decide (pte_pad pte = 0)) then
      Except.error (EX_SPF, { intr_tval_write st EX_SPF vaddr with amo := false })
    else Except.ok ()

/-- force_raise_pf_record from mmu.c: the per-access-type static counters,
embedded as explicit state; returns whether the same address has now been
forced five times in a row. -/
def force_raise_pf_record (st : CPUState) (vaddr ty : Nat) : Bool × CPUState :=
  let st :=
    if vaddr ≠ st.force_last_addr ty then
      { st with
        force_last_addr := fun t => if t = ty then vaddr else st.force_last_addr t,
        force_count := fun t => if t = ty then 0 else st.force_count t }
    else st
  let st := { st with
    force_count := fun t => if t = ty then st.force_count ty + 1 else st.force_count t }
  (st.force_count ty == 5, st)

/-- force_raise_gpf_record from mmu.c (CONFIG_RVH), over the g_ static
counters. -/
def force_raise_gpf_record (st : CPUState) (vaddr ty : Nat) : Bool × CPUState :=
  let st :=
    if vaddr ≠ st.g_force_last_addr ty then
      { st with
        g_force_last_addr := fun t => if t = ty then vaddr else st.g_force_last_addr t,
        g_force_count := fun t => if t = ty then 0 else st.g_force_count t }
    else st
  let st := { st with
    g_force_count := fun t => if t = ty then st.g_force_count ty + 1 else st.g_force_count t }
  (st.g_force_count ty == 5, st)

/-- force_raise_pf from mmu.c (CONFIG_RVH, CONFIG_USE_XS_ARCH_CSRS off): if
guided execution forces a page fault matching the access type, raise it with
the trap value taken from the execution guide; a fifth repeat of the same
address returns MEM_RET_OK instead.  The returns placed after
longjmp_exception in the C source are unreachable and not embedded. -/
def force_raise_pf (st : CPUState) (vaddr ty : Nat) :
    Except (Nat × CPUState) (Nat × CPUState) :=
  let ifetch := ty == MEM_TYPE_IFETCH
  if st.guided_exec && st.execution_guide.force_raise_exception then
    if ifetch && st.execution_guide.exception_num == EX_IPF then
      match force_raise_pf_record st vaddr ty with
      | (true, st) => Except.ok (MEM_RET_OK, st)
      | (false, st) =>
        if intr_deleg_VS st EX_IPF then
          Except.error (EX_IPF, { st with vstval := st.execution_guide.vstval })
        else if intr_deleg_S st EX_IPF then
          Except.error (EX_IPF, { st with stval := st.execution_guide.stval })
        else
          Except.error (EX_IPF, { st with mtval := st.execution_guide.mtval })
    else if !ifetch && ty == MEM_TYPE_READ &&
            st.execution_guide.exception_num == EX_LPF then
      match force_raise_pf_record st vaddr ty with
      | (true, st) => Except.ok (MEM_RET_OK, st)
      | (false, st) => Except.error (EX_LPF, intr_tval_write st EX_LPF vaddr)
    else if ty == MEM_TYPE_WRITE && st.execution_guide.exception_num == EX_SPF then
      match force_raise_pf_record st vaddr ty with
      | (true, st) => Except.ok (MEM_RET_OK, st)
      | (false, st) => Except.error (EX_SPF, intr_tval_write st EX_SPF vaddr)
    else Except.ok (MEM_RET_OK, st)
  else Except.ok (MEM_RET_OK, st)

/-- force_raise_gpf from mmu.c (CONFIG_RVH): guided guest-page-fault
injection; note the store branch of the C source writes the trap value
through INTR_TVAL_REG(EX_SPF) while raising EX_SGPF, embedded as written. -/
def force_raise_gpf (st : CPUState) (vaddr ty : Nat) :
    Except (Nat × CPUState) (Nat × CPUState) :=
  let ifetch := ty == MEM_TYPE_IFETCH
  if st.guided_exec && st.execution_guide.force_raise_exception then
    if ifetch && st.execution_guide.exception_num == EX_IGPF then
      match force_raise_gpf_record st vaddr ty with
      | (true, st) => Except.ok (MEM_RET_OK, st)
      | (false, st) =>
        if intr_deleg_S st EX_IGPF then
          Except.error (EX_IGPF, { st with stval := st.execution_guide.stval,
                                           htval := st.execution_guide.htval })
        else
          Except.error (EX_IGPF, { st with mtval := st.execution_guide.mtval,
                                           mtval2 := st.execution_guide.mtval2 })
    else if !ifetch && ty == MEM_TYPE_READ &&
            st.execution_guide.exception_num == EX_LGPF then
      match force_raise_gpf_record st vaddr ty with
      | (true, st) => Except.ok (MEM_RET_OK, st)
      | (false, st) =>
        let st := intr_tval_write st EX_LGPF vaddr
        Except.error (EX_LGPF, { st with htval := st.execution_guide.htval,
                                         mtval2 := st.execution_guide.mtval2 })
    else if ty == MEM_TYPE_WRITE && st.execution_guide.exception_num == EX_SGPF then
      match force_raise_gpf_record st vaddr ty with
      | (true, st) => Except.ok (MEM_RET_OK, st)
      | (false, st) =>
        let st := intr_tval_write st EX_SPF vaddr
        Except.error (EX_SGPF, { st with htval := st.execution_guide.htval,
                                         mtval2 := st.execution_guide.mtval2 })
    else Except.ok (MEM_RET_OK, st)
  else Except.ok (MEM_RET_OK, st)

/-- raise_guest_excep from mmu.c (CONFIG_RVH, FORCE_RAISE_PF defined): the
guided force path may raise a stage-1 page fault first; otherwise the
access-type-specific guest-page fault is raised with the virtual address and
the guest-physical address shifted right by 2 recorded in stval and htval
when the cause is delegated to supervisor, else in mtval and mtval2.  The
function never returns to its caller; the result is the raised cause and the
mutated state. -/
def raise_guest_excep (st : CPUState) (gpaddr vaddr ty : Nat) : Nat × CPUState :=
  let fr :=
    if st.guided_exec && st.execution_guide.force_raise_exception &&
       (st.execution_guide.exception_num == EX_IPF ||
        st.execution_guide.exception_num == EX_LPF ||
        st.execution_guide.exception_num == EX_SPF) then
      force_raise_pf st vaddr ty
    else Except.ok (MEM_RET_OK, st)
  match fr with
  | Except.error e => e
  | Except.ok (_, st) =>
    if ty == MEM_TYPE_IFETCH then
      if intr_deleg_S st EX_IGPF then
        (EX_IGPF, { st with stval := vaddr, htval := gpaddr >>> 2 })
      else
        (EX_IGPF, { st with mtval := vaddr, mtval2 := gpaddr >>> 2 })
    else if ty == MEM_TYPE_READ then
      let ex := if st.amo then EX_SGPF else EX_LGPF
      if intr_deleg_S st ex then
        (ex, { st with stval := vaddr, htval := gpaddr >>> 2 })
      else
        (ex, { st with mtval := vaddr, mtval2 := gpaddr >>> 2 })
    else
      if intr_deleg_S st EX_SGPF then
        (EX_SGPF, { st with stval := vaddr, htval := gpaddr >>> 2 })
      else
        (EX_SGPF, { st with mtval := vaddr, mtval2 := gpaddr >>> 2 })

/-- VPNiSHFT from mmu.c: bit offset of the level-i virtual page number. -/
def VPNiSHFT (i : Nat) : Nat := 12 + 9 * i

/-- VPNi from mmu.c: the 9-bit level-i virtual page number of an address. -/
def VPNi (va i : Nat) : Nat := (va >>> VPNiSHFT i) &&& (2 ^ 9 - 1)

/-- GVPNi from mmu.c (CONFIG_RVH): the guest-stage page number, 11 bits wide
at level 2 and 9 bits otherwise. -/
def GVPNi (va i : Nat) : Nat :=
  if i == 2 then (va >>> VPNiSHFT i) &&& (2 ^ 11 - 1)
  else (va >>> VPNiSHFT i) &&& (2 ^ 9 - 1)

/-- Outcome of the for-loop of gpa_stage in mmu.c: a translated address, the
bare MEM_RET_FAIL return for a misaligned superpage leaf, or falling out of
the loop into raise_guest_excep. -/
inductive GRes where
  | success (paddr : Nat)
  | failMisalign
  | reject
  deriving Repr, DecidableEq

/-- The for-loop of gpa_stage from mmu.c, one call per iteration, recursing
on the level.  A valid pointer entry descends; an invalid entry,
write-without-read entry, non-user entry, entry lacking the access-type
permission, or running out of levels rejects (the caller then raises a guest
page fault); a superpage leaf with a misaligned base returns MEM_RET_FAIL
without raising; otherwise the low virtual-address bits are spliced in. -/
def gpa_walk (st : CPUState) (mem : Nat → Nat) (gpaddr ty : Nat) :
    Nat → Nat → GRes
  | level, pg_base =>
    let p_pte := pg_base + GVPNi gpaddr level * 8
    let pte := mem p_pte
    let pg_base2 := pte_ppn pte <<< 12
    if pte_v pte && !pte_r pte && !pte_w pte && !pte_x pte then
      match level with
      | 0 => GRes.reject
      | l + 1 => gpa_walk st mem gpaddr ty l pg_base2
    else if !pte_v pte || (!pte_r pte && pte_w pte) then GRes.reject
    else if !pte_u pte then GRes.reject
    else if (if ty == MEM_TYPE_IFETCH || st.hlvx then !pte_x pte
             else if ty == MEM_TYPE_READ then
               !pte_r pte && !(st.mstatus.mxr && pte_x pte)
             else !(pte_r pte && pte_w pte)) then GRes.reject
    else
      if 0 < level then
        let pg_mask := 2 ^ VPNiSHFT level - 1
        if pg_base2 &&& pg_mask ≠ 0 then GRes.failMisalign
        else
          GRes.success (((pg_base2 &&& wnot pg_mask) |||
                         (gpaddr &&& pg_mask &&& wnot PAGE_MASK)) |||
                        (gpaddr &&& PAGE_MASK))
      else GRes.success (pg_base2 ||| (gpaddr &&& PAGE_MASK))

/-- gpa_stage from mmu.c (CONFIG_RVH): the second-stage (G-stage) guest
translation.  Disabled mode passes the address through; an address above the
architecturally supported guest-physical width raises a guest page fault
before any walk; otherwise the radix walk runs and its rejections raise a
guest page fault through raise_guest_excep, except the misaligned superpage
leaf which returns the bare MEM_RET_FAIL value. -/
def gpa_stage (st : CPUState) (mem : Nat → Nat) (gpaddr vaddr ty : Nat) :
    Except (Nat × CPUState) (Nat × CPUState) :=
  let st := { st with pt_level := 0 }
  if st.hgatp.mode = 0 then Except.ok (gpaddr, st)
  else
    let rangeBad :=
      if st.hgatp.mode = 9 then decide (gpaddr &&& wnot (2 ^ 50 - 1) ≠ 0)
      else if st.hgatp.mode = 8 then decide (gpaddr &&& wnot (2 ^ 41 - 1) ≠ 0)
      else false
    if rangeBad then Except.error (raise_guest_excep st gpaddr vaddr ty)
    else
      let max_level :=
        if st.hgatp.mode = 9 then 4 else if st.hgatp.mode = 8 then 3 else 0
      if max_level = 0 then Except.error (raise_guest_excep st gpaddr vaddr ty)
      else
        let pg_base := st.hgatp.ppn <<< 12
        match gpa_walk st mem gpaddr ty (max_level - 1) pg_base with
        | GRes.success paddr => Except.ok (paddr, st)
        | GRes.failMisalign => Except.ok (MEM_RET_FAIL, st)
        | GRes.reject => Except.error (raise_guest_excep st gpaddr vaddr ty)

/-- Outcome of the for-loop of ptw in mmu.c: a leaf entry found at a level,
or a jump to the bad label carrying the last entry read. -/
inductive WalkRes where
  | found (pte level : Nat)
  | bad (pte : Nat)
  deriving Repr, DecidableEq

/-- The classification the loop body of ptw in mmu.c applies to each entry
(in source order): an invalid or write-without-read entry jumps to bad; an
entry with read, execute or nonzero pad bits is a leaf and stops the walk;
anything else is a pointer to the next level. -/
inductive PteClass where
  | bad
  | leaf
  | pointer
  deriving Repr, DecidableEq

/-- The entry classification of the ptw loop body (mmu.c lines around the
goto bad and break statements). -/
def pte_classify (pte : Nat) : PteClass :=
  if !pte_v pte || (!pte_r pte && pte_w pte) then PteClass.bad
  else if pte_r pte || pte_x pte || decide (pte_pad pte ≠ 0) then PteClass.leaf
  else PteClass.pointer

/-- The for-loop of ptw from mmu.c (CONFIG_MULTICORE_DIFF off): each
iteration routes the entry address through gpa_stage when virtualized, reads
the 8-byte entry, jumps to bad on an invalid or write-without-read entry,
stops on a leaf (read, execute, or nonzero pad bits), and otherwise descends
one level, jumping to bad below level 0. -/
def ptw_walk (st : CPUState) (mem : Nat → Nat) (vaddr ty : Nat) (virt : Bool) :
    Nat → Nat → Except (Nat × CPUState) (WalkRes × CPUState)
  | 0, pg_base =>
    let p_pte0 := pg_base + VPNi vaddr 0 * 8
    match (if virt then gpa_stage st mem p_pte0 vaddr ty
           else Except.ok (p_pte0, st)) with
    | Except.error e => Except.error e
    | Except.ok (p_pte, st) =>
      let pte := mem p_pte
      match pte_classify pte with
      | PteClass.bad => Except.ok (WalkRes.bad pte, st)
      | PteClass.leaf => Except.ok (WalkRes.found pte 0, st)
      | PteClass.pointer => Except.ok (WalkRes.bad pte, st)
  | l + 1, pg_base =>
    let p_pte0 := pg_base + VPNi vaddr (l + 1) * 8
    match (if virt then gpa_stage st mem p_pte0 vaddr ty
           else Except.ok (p_pte0, st)) with
    | Except.error e => Except.error e
    | Except.ok (p_pte, st) =>
      let pte := mem p_pte
      let pg_base2 := pte_ppn pte <<< 12
      match pte_classify pte with
      | PteClass.bad => Except.ok (WalkRes.bad pte, st)
      | PteClass.leaf => Except.ok (WalkRes.found pte (l + 1), st)
      | PteClass.pointer => ptw_walk st mem vaddr ty virt l pg_base2

/-- The bad label of ptw from mmu.c: check_permission is invoked with the
ok flag false, which always raises the access-type-specific page fault; the
MEM_RET_FAIL return below it is kept for faithfulness. -/
def ptw_bad (st : CPUState) (pte vaddr ty : Nat) (virt : Bool) (mode : Nat) :
    Except (Nat × CPUState) (Nat × CPUState) :=
  match check_permission st pte false vaddr ty virt mode with
  | Except.error e => Except.error e
  | Except.ok _ => Except.ok (MEM_RET_FAIL, st)

/-- Sign extension from bit width w to 64 bits, embedding the C idiom of a
left shift by 64 - w on int64_t followed by an arithmetic right shift. -/
def sext (w x : Nat) : Nat :=
  if x.testBit (w - 1) then x % 2 ^ w + (2 ^ 64 - 2 ^ w) else x % 2 ^ w

/-- The tail of ptw from mmu.c after the permission check and superpage
splice: under virtualization the result passes through gpa_stage once more;
then (CONFIG_SHARE off) a stale accessed bit, or a stale dirty bit on a
write, raises the access-type-specific page fault, into vstval or mtval when
in guest mode and through INTR_TVAL_REG otherwise; otherwise the page base
or-ed with MEM_RET_OK is returned. -/
def ptw_finish (st : CPUState) (mem : Nat → Nat) (vaddr ty : Nat)
    (virt : Bool) (pte pg_base : Nat) :
    Except (Nat × CPUState) (Nat × CPUState) :=
  let step : Except (Nat × CPUState) (Nat × CPUState) :=
    if virt then
      match gpa_stage st mem (pg_base ||| (vaddr &&& PAGE_MASK)) vaddr ty with
      | Except.error e => Except.error e
      | Except.ok (p, st) =>
        let pg2 := p &&& wnot PAGE_MASK
        if pg2 = MEM_RET_FAIL then Except.ok (MEM_RET_FAIL, st)
        else Except.ok (pg2, st)
    else Except.ok (pg_base, st)
  match step with
  | Except.error e => Except.error e
  | Except.ok (pg_base, st) =>
    let is_write := ty == MEM_TYPE_WRITE
    if !pte_a pte || (!pte_d pte && is_write) then
      if ty == MEM_TYPE_IFETCH then
        if st.v then
          if intr_deleg_S st EX_IPF then
            Except.error (EX_IPF, { st with vstval := vaddr })
          else Except.error (EX_IPF, { st with mtval := vaddr })
        else Except.error (EX_IPF, intr_tval_write st EX_IPF vaddr)
      else if ty == MEM_TYPE_READ then
        let ex := if st.amo then EX_SPF else EX_LPF
        if st.v then
          if intr_deleg_S st ex then
            Except.error (ex, { st with vstval := vaddr })
          else Except.error (ex, { st with mtval := vaddr })
        else Except.error (ex, intr_tval_write st ex vaddr)
      else if ty == MEM_TYPE_WRITE then
        if st.v then
          if intr_deleg_S st EX_SPF then
            Except.error (EX_SPF, { st with vstval := vaddr })
          else Except.error (EX_SPF, { st with mtval := vaddr })
        else Except.error (EX_SPF, intr_tval_write st EX_SPF vaddr)
      else Except.ok (pg_base ||| MEM_RET_OK, st)
    else Except.ok (pg_base ||| MEM_RET_OK, st)

/-- ptw from mmu.c (CONFIG_RVH, CONFIG_SHARE off): the first-stage page walk.
Computes the effective virtualization flag and mode (mprv and hld_st
overrides apply to data accesses only), the root base and depth from satp or
vsatp, performs the canonical sign-extension check, runs the walk loop,
applies check_permission to the leaf, records pt_level, checks superpage
alignment and splices the virtual-address bits, chains the second stage when
virtualized, and performs the stale accessed/dirty re-fault. -/
def ptw (st0 : CPUState) (mem : Nat → Nat) (vaddr ty : Nat) :
    Except (Nat × CPUState) (Nat × CPUState) :=
  let vm :=
    if ty ≠ MEM_TYPE_IFETCH then
      let m1 := if st0.mstatus.mprv then
          (st0.mstatus.mpv && decide (st0.mstatus.mpp ≠ MODE_M), st0.mstatus.mpp)
        else (st0.v, st0.mode)
      if st0.hld_st then (true, st0.hstatus.spvp) else m1
    else (st0.v, st0.mode)
  let virt := vm.1
  let mode := vm.2
  if virt && st0.vsatp.mode = 0 then
    match gpa_stage st0 mem vaddr vaddr ty with
    | Except.error e => Except.error e
    | Except.ok (p, st) => Except.ok (p &&& wnot PAGE_MASK, st)
  else
    let pg_base :=
      if virt then st0.vsatp.ppn <<< 12 else st0.satp.ppn <<< 12
    let max_level :=
      if virt then (if st0.vsatp.mode = 8 then 3 else 4)
      else (if st0.satp.mode = 8 then 3 else 4)
    if (if max_level = 4 then decide (sext 48 vaddr ≠ vaddr)
        else decide (sext 39 vaddr ≠ vaddr)) then
      ptw_bad st0 0 vaddr ty virt mode
    else
      match ptw_walk st0 mem vaddr ty virt (max_level - 1) pg_base with
      | Except.error e => Except.error e
      | Except.ok (WalkRes.bad pte, st) => ptw_bad st pte vaddr ty virt mode
      | Except.ok (WalkRes.found pte level, st) =>
        match check_permission st pte true vaddr ty virt mode with
        | Except.error e => Except.error e
        | Except.ok _ =>
          let st := { st with pt_level := level }
          let pg_base := pte_ppn pte <<< 12
          if 0 < level then
            let pg_mask := 2 ^ VPNiSHFT level - 1
            if pg_base &&& pg_mask ≠ 0 then ptw_bad st pte vaddr ty virt mode
            else
              ptw_finish st mem vaddr ty virt pte
                ((pg_base &&& wnot pg_mask) ||| (vaddr &&& pg_mask &&& wnot PAGE_MASK))
          else ptw_finish st mem vaddr ty virt pte pg_base

/-- isa_misalign_data_addr_check from mmu.c with CONFIG_AC_SOFT on: a data
address not aligned to the access length raises the load or store
address-misaligned exception with the address in the delegation-selected
trap-value register.  The embedding assumes len is at least 1 (the C
computation len - 1 is on int). -/
def isa_misalign_data_addr_check (st : CPUState) (vaddr len ty : Nat) :
    Except (Nat × CPUState) Unit :=
  if vaddr &&& (len - 1) ≠ 0 then
    let ex := if st.amo || ty == MEM_TYPE_WRITE then EX_SAM else EX_LAM
    Except.error (ex, intr_tval_write st ex vaddr)
  else Except.ok ()

/-- isa_mmu_check from mmu.c (CONFIG_RVH): the per-access MMU check.  Checks
data alignment, then verifies the canonical-address property of the virtual
address whenever translation is enabled (with the guest-physical range check
replacing it when the guest first stage is off), raising the access-type
specific page fault or guest-page fault on violation, and finally returns
the cached Direct/Translate state for the access class. -/
def isa_mmu_check (st : CPUState) (vaddr len ty : Nat) :
    Except (Nat × CPUState) Nat :=
  let is_ifetch := ty == MEM_TYPE_IFETCH
  match (if !is_ifetch then isa_misalign_data_addr_check st vaddr len ty
         else Except.ok ()) with
  | Except.error e => Except.error e
  | Except.ok _ =>
    let enable_39 := decide (st.satp.mode = 8) ||
      (st.v && (decide (st.vsatp.mode = 8) || decide (st.hgatp.mode = 8)))
    let enable_48 := decide (st.satp.mode = 9) ||
      (st.v && (decide (st.vsatp.mode = 9) || decide (st.hgatp.mode = 9)))
    let eff_mode := if st.mstatus.mprv && !is_ifetch then st.mstatus.mpp else st.mode
    let vm_enable := decide (eff_mode < MODE_M) && (enable_39 || enable_48)
    let va_msbs_ok :=
      if vm_enable then
        if enable_48 then
          decide (vaddr >>> 47 = 2 ^ 17 - 1) || decide (vaddr >>> 47 = 0)
        else
          decide (vaddr >>> 38 = 2 ^ 26 - 1) || decide (vaddr >>> 38 = 0)
      else true
    let vg :=
      if st.v && st.vsatp.mode = 0 then
        if enable_48 then
          if vaddr &&& wnot (2 ^ 50 - 1) = 0 then (true, false)
          else (va_msbs_ok, true)
        else if enable_39 then
          if vaddr &&& wnot (2 ^ 41 - 1) = 0 then (true, false)
          else (va_msbs_ok, true)
        else (va_msbs_ok, false)
      else (va_msbs_ok, false)
    let va_msbs_ok := vg.1
    let gpf := vg.2
    if !va_msbs_ok then
      if is_ifetch then
        if st.hld_st || gpf then
          if intr_deleg_S st EX_IGPF then
            Except.error (EX_IGPF, { st with stval := vaddr, htval := vaddr >>> 2 })
          else
            Except.error (EX_IGPF, { st with mtval := vaddr, mtval2 := vaddr >>> 2 })
        else if st.v then
          if intr_deleg_S st EX_IPF then
            Except.error (EX_IPF, { st with vstval := vaddr })
          else Except.error (EX_IPF, { st with mtval := vaddr })
        else Except.error (EX_IPF, intr_tval_write st EX_IPF vaddr)
      else if ty == MEM_TYPE_READ then
        if st.hld_st || gpf then
          let ex := if st.amo then EX_SGPF else EX_LGPF
          if intr_deleg_S st ex then
            Except.error (ex, { st with stval := vaddr, htval := vaddr >>> 2 })
          else
            Except.error (ex, { st with mtval := vaddr, mtval2 := vaddr >>> 2 })
        else if st.v then
          let ex := if st.amo then EX_SPF else EX_LPF
          if intr_deleg_S st ex then
            Except.error (ex, { st with vstval := vaddr })
          else Except.error (ex, { st with mtval := vaddr })
        else
          let ex := if st.amo then EX_SPF else EX_LPF
          Except.error (ex, intr_tval_write st ex vaddr)
      else
        if st.hld_st || gpf then
          if intr_deleg_S st EX_SGPF then
            Except.error (EX_SGPF, { st with stval := vaddr, htval := vaddr >>> 2 })
          else
            Except.error (EX_SGPF, { st with mtval := vaddr, mtval2 := vaddr >>> 2 })
        else if st.v then
          if intr_deleg_S st EX_SPF then
            Except.error (EX_SPF, { st with vstval := vaddr })
          else Except.error (EX_SPF, { st with mtval := vaddr })
        else Except.error (EX_SPF, intr_tval_write st EX_SPF vaddr)
    else
      if st.v && is_ifetch then
        Except.ok (if st.h_mmu_state ≠ MMU_DIRECT then MMU_TRANSLATE else MMU_DIRECT)
      else if is_ifetch then
        Except.ok (if st.ifetch_mmu_state ≠ MMU_DIRECT then MMU_TRANSLATE else MMU_DIRECT)
      else if st.hld_st then
        Except.ok (if st.h_mmu_state ≠ MMU_DIRECT then MMU_TRANSLATE else MMU_DIRECT)
      else
        Except.ok (if st.data_mmu_state ≠ MMU_DIRECT then MMU_TRANSLATE else MMU_DIRECT)

/-- isa_mmu_translate from mmu.c (FORCE_RAISE_PF defined, CONFIG_RVH): a
request whose footprint crosses a page boundary returns the distinguished
cross-page value before anything else; otherwise the page walk runs, and on
a non-failed walk the guided forced-fault injectors may override the
result. -/
def isa_mmu_translate (st : CPUState) (mem : Nat → Nat) (vaddr len ty : Nat) :
    Except (Nat × CPUState) (Nat × CPUState) :=
  let is_cross_page := decide ((vaddr &&& PAGE_MASK) + len > PAGE_SIZE)
  if is_cross_page then Except.ok (MEM_RET_CROSS_PAGE, st)
  else
    match ptw st mem vaddr ty with
    | Except.error e => Except.error e
    | Except.ok (ptw_result, st) =>
      if ptw_result ≠ MEM_RET_FAIL then
        match force_raise_pf st vaddr ty with
        | Except.error e => Except.error e
        | Except.ok (r1, st) =>
          if r1 ≠ MEM_RET_OK then Except.ok (MEM_RET_FAIL, st)
          else
            match force_raise_gpf st vaddr ty with
            | Except.error e => Except.error e
            | Except.ok (r2, st) =>
              if r2 ≠ MEM_RET_OK then Except.ok (MEM_RET_FAIL, st)
              else Except.ok (ptw_result, st)
      else Except.ok (ptw_result, st)

/-- update_mmu_state_internal from mmu.c (CONFIG_RV_SV48 on): Translate when
the effective mode (mprv override for data accesses) is below machine and
satp selects Sv39 or Sv48. -/
def update_mmu_state_internal (st : CPUState) (ifetch : Bool) : Nat :=
  let mode := if st.mstatus.mprv && !ifetch then st.mstatus.mpp else st.mode
  if mode < MODE_M then
    if st.satp.mode = 8 ∨ st.satp.mode = 9 then MMU_TRANSLATE else MMU_DIRECT
  else MMU_DIRECT

/-- update_h_mmu_state_internal from mmu.c (CONFIG_RVH, CONFIG_RV_SV48 on):
Translate when the effective mode is below machine and vsatp or hgatp
selects a paged mode. -/
def update_h_mmu_state_internal (st : CPUState) (ifetch : Bool) : Nat :=
  let mode := if st.mstatus.mprv && !ifetch then st.mstatus.mpp else st.mode
  if mode < MODE_M then
    if st.vsatp.mode = 8 ∨ st.vsatp.mode = 9 ∨
       st.hgatp.mode = 8 ∨ st.hgatp.mode = 9 then MMU_TRANSLATE else MMU_DIRECT
  else MMU_DIRECT

/-- update_mmu_state from mmu.c: recompute the three cached MMU states (the
changed-flag return value is unused inside this core). -/
def update_mmu_state (st : CPUState) : CPUState :=
  { st with
    ifetch_mmu_state := update_mmu_state_internal st true,
    data_mmu_state := update_mmu_state_internal st false,
    h_mmu_state := update_h_mmu_state_internal st false }

/-- get_trap_pc from intr.c (CONFIG_RVH): vectored interrupts add four times
the cause index to the masked tvec base. -/
def get_trap_pc (xtvec xcause : Nat) : Nat :=
  let base := (xtvec >>> 2) <<< 2
  let tmode := xtvec &&& 1
  let cause_no := xcause &&& 255
  if (xcause >>> 63) == 1 && tmode == 1 then base + (cause_no <<< 2) else base

/-- The guest-virtual-address flag computed in the supervisor and machine
branches of raise_intr in intr.c: set for guest-page faults, and for the
low exception causes and stage-1 page faults when the previous state was
virtualized or a hypervisor load/store was in flight. -/
def intr_gva (v hld_st_temp : Bool) (NO : Nat) : Bool :=
  decide (NO = EX_IGPF) || decide (NO = EX_LGPF) || decide (NO = EX_SGPF) ||
  ((v || hld_st_temp) &&
    ((decide (NO ≤ 7) && decide (NO ≠ 2)) ||
     decide (NO = EX_IPF) || decide (NO = EX_LPF) || decide (NO = EX_SPF)))

/-- The Virtual-Supervisor branch of raise_intr from intr.c, taken when the
cause is delegated at both the machine and the hypervisor level while guest
mode is on below machine mode: an interrupt cause is remapped down by one
(64-bit wrap kept), vscause/vsepc/vsstatus and the per-exception vstval are
written, guest mode stays on, the mode becomes supervisor, and the PC
derives from vstvec. -/
def intr_to_VS (st : CPUState) (NO epc : Nat) : Nat × CPUState :=
  let vscause :=
    if NO.testBit 63 then (((NO % 2 ^ 63) + (2 ^ 64 - 1)) % 2 ^ 64) ||| INTR_BIT
    else NO
  let st := { st with
    vscause := vscause, vsepc := epc,
    vsstatus := { st.vsstatus with
      spp := st.mode % 2, spie := st.vsstatus.sie, sie := false } }
  let st :=
    if NO = EX_IPF ∨ NO = EX_LPF ∨ NO = EX_SPF ∨ NO = EX_LAM ∨ NO = EX_SAM ∨
       NO = EX_IAF ∨ NO = EX_LAF ∨ NO = EX_SAF then st
    else if NO = EX_BP then { st with vstval := epc }
    else if NO = EX_II then { st with vstval := st.instr }
    else { st with vstval := 0 }
  let st := { st with v := true, mode := MODE_S }
  let st := update_mmu_state st
  (get_trap_pc st.vstvec st.vscause, st)

/-- The Supervisor branch of raise_intr from intr.c, taken when the cause is
delegated at the machine level only: hstatus records the guest-virtual flag
and previous virtualization, guest mode is cleared, scause/sepc/mstatus
supervisor fields and the per-exception stval (and zeroed htval) are
written, and the PC derives from stvec. -/
def intr_to_S (st : CPUState) (hld_st_temp : Bool) (NO epc : Nat) :
    Nat × CPUState :=
  let pv := if st.mstatus.mprv then st.mstatus.mpv else st.v
  let st := { st with hstatus := { st.hstatus with
    gva := intr_gva pv hld_st_temp NO, spv := st.v } }
  let st := if st.v then
      { st with hstatus := { st.hstatus with spvp := st.mode % 2 } }
    else st
  let st := { st with v := false }
  let st := { st with
    scause := NO, sepc := epc,
    mstatus := { st.mstatus with
      spp := st.mode % 2, spie := st.mstatus.sie, sie := false } }
  let st :=
    if NO = EX_IPF ∨ NO = EX_LPF ∨ NO = EX_SPF ∨ NO = EX_LAM ∨ NO = EX_SAM ∨
       NO = EX_IAF ∨ NO = EX_LAF ∨ NO = EX_SAF then { st with htval := 0 }
    else if NO = EX_IGPF ∨ NO = EX_LGPF ∨ NO = EX_SGPF then st
    else if NO = EX_II ∨ NO = EX_VI then
      { st with stval := st.instr, htval := 0 }
    else if NO = EX_BP then { st with htval := 0, stval := epc }
    else { st with stval := 0, htval := 0 }
  let st := { st with htinst := 0 }
  let st := { st with mode := MODE_S }
  let st := update_mmu_state st
  (get_trap_pc st.stvec st.scause, st)

/-- The Machine branch of raise_intr from intr.c, taken when no delegation
applies: mstatus records the guest-virtual flag and previous virtualization,
guest mode is cleared, mcause/mepc/mstatus machine fields and the
per-exception mtval/mtval2 are written, and the PC derives from mtvec (the
mtval2 write after the break in the EX_BP case of the C source is dead code
and is not reached). -/
def intr_to_M (st : CPUState) (hld_st_temp : Bool) (NO epc : Nat) :
    Nat × CPUState :=
  let pv := if st.mstatus.mprv then st.mstatus.mpv else st.v
  let st := { st with mstatus := { st.mstatus with
    gva := intr_gva pv hld_st_temp NO, mpv := st.v } }
  let st := { st with v := false }
  let st := { st with
    mcause := NO, mepc := epc,
    mstatus := { st.mstatus with
      mpp := st.mode % 4, mpie := st.mstatus.mie, mie := false } }
  let st :=
    if NO = EX_IPF ∨ NO = EX_LPF ∨ NO = EX_SPF ∨ NO = EX_LAM ∨ NO = EX_SAM ∨
       NO = EX_IAF ∨ NO = EX_LAF ∨ NO = EX_SAF then { st with mtval2 := 0 }
    else if NO = EX_IGPF ∨ NO = EX_LGPF ∨ NO = EX_SGPF then st
    else if NO = EX_II ∨ NO = EX_VI then
      { st with mtval := st.instr, mtval2 := 0 }
    else if NO = EX_BP then { st with mtval := epc }
    else { st with mtval := 0, mtval2 := 0 }
  let st := { st with mtinst := 0 }
  let st := { st with mode := MODE_M }
  let st := update_mmu_state st
  (get_trap_pc st.mtvec st.mcause, st)

/-- raise_intr from intr.c (CONFIG_RVH, CONFIG_TVAL_EX_II on, CONFIG_RV_SDTRIG
off): the trap delegation engine.  Computes the supervisor delegation on the
incoming state, clears the hypervisor load/store flag (keeping its old value
for the guest-virtual-address computation), computes the virtual-supervisor
delegation, and dispatches to the Virtual-Supervisor, Supervisor or Machine
branch.  The difftest skip and the translation-cache flush flag are external
effects outside the embedded state. -/
def raise_intr (st : CPUState) (NO epc : Nat) : Nat × CPUState :=
  let delegS := intr_deleg_S st NO
  let hld_st_temp := st.hld_st
  let st := { st with hld_st := false }
  let delegVS := intr_deleg_VS st NO
  if delegVS then intr_to_VS st NO epc
  else if delegS then intr_to_S st hld_st_temp NO epc
  else intr_to_M st hld_st_temp NO epc

/-- Modelled from the spec: the IRQ_* mip/mie bit indices from a local header
not part of the given sources, following the RISC-V privileged encoding
(software 0..3, timer 4..7, external 8..11, guest-external 12, counter
overflow 13) the spec requires bit compatibility with. -/
def IRQ_USIP : Nat := 0

/-- Supervisor software interrupt bit (see IRQ_USIP). -/
def IRQ_SSIP : Nat := 1

/-- Virtual-supervisor software interrupt bit (see IRQ_USIP). -/
def IRQ_VSSIP : Nat := 2

/-- Machine software interrupt bit (see IRQ_USIP). -/
def IRQ_MSIP : Nat := 3

/-- User timer interrupt bit (see IRQ_USIP). -/
def IRQ_UTIP : Nat := 4

/-- Supervisor timer interrupt bit (see IRQ_USIP). -/
def IRQ_STIP : Nat := 5

/-- Virtual-supervisor timer interrupt bit (see IRQ_USIP). -/
def IRQ_VSTIP : Nat := 6

/-- Machine timer interrupt bit (see IRQ_USIP). -/
def IRQ_MTIP : Nat := 7

/-- User external interrupt bit (see IRQ_USIP). -/
def IRQ_UEIP : Nat := 8

/-- Supervisor external interrupt bit (see IRQ_USIP). -/
def IRQ_SEIP : Nat := 9

/-- Virtual-supervisor external interrupt bit (see IRQ_USIP). -/
def IRQ_VSEIP : Nat := 10

/-- Machine external interrupt bit (see IRQ_USIP). -/
def IRQ_MEIP : Nat := 11

/-- Supervisor guest external interrupt bit (see IRQ_USIP). -/
def IRQ_SGEI : Nat := 12

/-- Local counter-overflow interrupt bit (see IRQ_USIP). -/
def IRQ_LCOFI : Nat := 13

/-- The priority array of isa_query_intr from intr.c (CONFIG_RVH and
CONFIG_RV_SSCOFPMF on, so all fourteen entries are scanned). -/
def intr_priority_order : List Nat :=
  [IRQ_MEIP, IRQ_MSIP, IRQ_MTIP,
   IRQ_SEIP, IRQ_SSIP, IRQ_STIP,
   IRQ_UEIP, IRQ_USIP, IRQ_UTIP,
   IRQ_VSEIP, IRQ_VSSIP, IRQ_VSTIP, IRQ_SGEI,
   IRQ_LCOFI]

/-- The scan loop of isa_query_intr from intr.c: the first cause in priority
order that is pending in intr_vec and globally enabled under the
delegation-dependent rule is returned with the interrupt bit set. -/
def query_intr_loop (st : CPUState) (intr_vec : Nat) : List Nat → Nat
  | [] => INTR_EMPTY
  | irq :: rest =>
    if intr_vec.testBit irq then
      let deleg := st.mideleg.testBit irq
      let hdeleg := st.hideleg.testBit irq
      let global_enable :=
        if hdeleg && deleg then
          (st.v && decide (st.mode = MODE_S) && st.vsstatus.sie) ||
          (st.v && decide (st.mode < MODE_S))
        else if deleg then
          (decide (st.mode = MODE_S) && st.mstatus.sie) ||
          decide (st.mode < MODE_S) || st.v
        else
          (decide (st.mode = MODE_M) && st.mstatus.mie) ||
          decide (st.mode < MODE_M)
      if global_enable then irq ||| INTR_BIT else query_intr_loop st intr_vec rest
    else query_intr_loop st intr_vec rest

/-- isa_query_intr from intr.c (CONFIG_RVH, CONFIG_RV_SSCOFPMF on): returns
the sentinel when nothing is pending-and-enabled in mie and mip, otherwise
scans the priority order. -/
def isa_query_intr (st : CPUState) : Nat :=
  let intr_vec := st.mie &&& st.mip
  if intr_vec = 0 then INTR_EMPTY
  else query_intr_loop st intr_vec intr_priority_order

/-- Modelled from the spec: the remaining access-type enum values used by the
PMP check for table-walk reads on behalf of a fetch or a write; from the
memory header not part of the given sources (only their distinctness from
0,1,2 matters here). -/
def MEM_TYPE_IFETCH_READ : Nat := 3

/-- Table-walk read on behalf of a write (see MEM_TYPE_IFETCH_READ). -/
def MEM_TYPE_WRITE_READ : Nat := 4

/-- Modelled from the spec: the pmpcfg field layout from the RISC-V
privileged specification (R bit 0, W bit 1, X bit 2, A bits 3..4, L bit 7),
from a header not part of the given sources. -/
def PMP_R : Nat := 1

/-- PMP write permission bit (see PMP_R). -/
def PMP_W : Nat := 2

/-- PMP execute permission bit (see PMP_R). -/
def PMP_X : Nat := 4

/-- PMP addressing-mode field mask (see PMP_R). -/
def PMP_A : Nat := 24

/-- PMP lock bit (see PMP_R). -/
def PMP_L : Nat := 128

/-- PMP top-of-range addressing mode (see PMP_R). -/
def PMP_TOR : Nat := 8

/-- PMP naturally-aligned-four-byte addressing mode (see PMP_R). -/
def PMP_NA4 : Nat := 16

/-- PMP naturally-aligned-power-of-two addressing mode (see PMP_R). -/
def PMP_NAPOT : Nat := 24

/-- PMP address shift: pmpaddr registers hold bits 2 and up. -/
def PMP_SHIFT : Nat := 2

/-- Modelled from the spec: pmp_tor_mask from a header not part of the given
sources; with the four-byte platform granularity the spec describes (match
bounds from the lowest cleared bit of the address or 1) the mask keeps every
pmpaddr bit, so it is the all-ones word. -/
def pmp_tor_mask : Nat := WORD_MASK

/-- The 4-byte sector offsets of an access footprint, one per loop iteration
of the sector loop in isa_pmp_check_permission (offset = 0, 4, 8, ... below
len). -/
def sector_offsets (len : Nat) : List Nat :=
  (List.range ((len + 3) / 4)).map (fun k => 4 * k)

/-- The per-sector match predicate of isa_pmp_check_permission in mmu.c:
top-of-range entries compare against the running base and the top; other
active entries compare under the NAPOT-derived mask. -/
def pmp_match_one (base tor mask cur_addr : Nat) (is_tor : Bool) : Bool :=
  let napot_match := decide ((cur_addr ^^^ tor) &&& mask = 0)
  let tor_match := decide (base ≤ cur_addr) && decide (cur_addr < tor)
  if is_tor then tor_match else napot_match

/-- The running previous-top-of-range base the PMP entry loop carries into
entry i: zero for entry 0, the top-of-range of entry i-1 afterwards (the
base is advanced on every iteration, active or not). -/
def pmp_base (st : CPUState) : Nat → Nat
  | 0 => 0
  | i + 1 => ((st.pmpaddr i &&& pmp_tor_mask) <<< PMP_SHIFT) % 2 ^ 64

/-- The NAPOT-derived match mask the PMP entry loop computes for entry i. -/
def pmp_entry_mask (st : CPUState) (i : Nat) : Nat :=
  let pmpaddr := st.pmpaddr i
  let is_na4 := st.pmpcfg i &&& PMP_A = PMP_NA4
  let mask0 := ((pmpaddr <<< 1) % 2 ^ 64) |||
               (if is_na4 then 0 else 1) ||| wnot pmp_tor_mask
  (wnot (mask0 &&& wnot ((mask0 + 1) % 2 ^ 64)) <<< PMP_SHIFT) % 2 ^ 64

/-- Whether the 4-byte sector at offset o of an access at addr matches PMP
entry i, exactly as the sector loop of isa_pmp_check_permission computes it
when its running base equals base. -/
def pmp_entry_match (st : CPUState) (base addr i o : Nat) : Bool :=
  pmp_match_one base (((st.pmpaddr i &&& pmp_tor_mask) <<< PMP_SHIFT) % 2 ^ 64)
    (pmp_entry_mask st i) ((addr + o) % 2 ^ 64)
    (decide (st.pmpcfg i &&& PMP_A = PMP_TOR))

/-- The entry loop of isa_pmp_check_permission from mmu.c
(CONFIG_RV_PMP_CHECK): entries are scanned in index order with the running
top-of-range base; the first entry matching any sector decides the outcome:
denial if some sector does not match it, else the machine-with-lock-clear or
R/W/X permission rule; no match at all grants exactly machine mode. -/
def pmp_check_loop (st : CPUState) (addr len ty mode : Nat) :
    Nat → List Nat → Bool
  | _, [] => decide (mode = MODE_M)
  | base, i :: rest =>
    let tor := ((st.pmpaddr i &&& pmp_tor_mask) <<< PMP_SHIFT) % 2 ^ 64
    let cfg := st.pmpcfg i
    if cfg &&& PMP_A ≠ 0 then
      let offs := sector_offsets len
      let any_match := offs.any (fun o => pmp_entry_match st base addr i o)
      let all_match := offs.all (fun o => pmp_entry_match st base addr i o)
      if any_match then
        if !all_match then false
        else
          (decide (mode = MODE_M) && decide (cfg &&& PMP_L = 0)) ||
          ((decide (ty = MEM_TYPE_READ) || decide (ty = MEM_TYPE_IFETCH_READ) ||
            decide (ty = MEM_TYPE_WRITE_READ)) && decide (cfg &&& PMP_R ≠ 0)) ||
          (decide (ty = MEM_TYPE_WRITE) && decide (cfg &&& PMP_W ≠ 0)) ||
          (decide (ty = MEM_TYPE_IFETCH) && decide (cfg &&& PMP_X ≠ 0))
      else pmp_check_loop st addr len ty mode tor rest
    else pmp_check_loop st addr len ty mode tor rest

/-- isa_pmp_check_permission from mmu.c (CONFIG_RV_PMP_CHECK branch): the
effective mode applies the mprv override when called with machine mode; with
no active entries every access is granted; otherwise the entry loop runs
over the active entries starting from base 0.  The active entry count
CONFIG_RV_PMP_ACTIVE_NUM is a compile-time constant taken as a parameter. -/
def isa_pmp_check_permission (st : CPUState) (pmp_active_num : Nat)
    (addr len ty out_mode : Nat) : Bool :=
  let ifetch := ty == MEM_TYPE_IFETCH
  let mode := if out_mode = MODE_M then
      (if st.mstatus.mprv && !ifetch then st.mstatus.mpp else st.mode)
    else out_mode
  if pmp_active_num = 0 then true
  else pmp_check_loop st addr len ty mode 0 (List.range pmp_active_num)

/-- A baseline concrete architectural state with every field zero, cleared
or empty, used as the starting point of concrete scenarios. -/
def st_init : CPUState :=
  { mode := 0, v := false, amo := false, instr := 0, guided_exec := false,
    execution_guide :=
      { force_raise_exception := false, exception_num := 0, mtval := 0,
        stval := 0, mtval2 := 0, htval := 0, vstval := 0 },
    mstatus :=
      { mprv := false, mpp := 0, mpv := false, sum := false, mxr := false,
        sie := false, spie := false, spp := 0, mie := false, mpie := false,
        gva := false },
    vsstatus :=
      { sum := false, mxr := false, sie := false, spie := false, spp := 0 },
    hstatus := { gva := false, spv := false, spvp := 0 },
    satp := { mode := 0, ppn := 0 },
    vsatp := { mode := 0, ppn := 0 },
    hgatp := { mode := 0, ppn := 0 },
    medeleg := 0, mideleg := 0, hedeleg := 0, hideleg := 0,
    mie := 0, mip := 0,
    mtval := 0, stval := 0, vstval := 0, htval := 0, mtval2 := 0,
    mcause := 0, scause := 0, vscause := 0,
    mepc := 0, sepc := 0, vsepc := 0,
    mtvec := 0, stvec := 0, vstvec := 0,
    htinst := 0, mtinst := 0,
    hld_st := false, hlvx := false, pt_level := 0,
    ifetch_mmu_state := 0, data_mmu_state := 0, h_mmu_state := 0,
    pmpaddr := fun _ => 0, pmpcfg := fun _ => 0,
    force_last_addr := fun _ => 0, force_count := fun _ => 0,
    g_force_last_addr := fun _ => 0, g_force_count := fun _ => 0 }

/-- Modelled from the spec (interrupt-priority paragraph of section 4.5):
the delegation-dependent global-enable rule in the words of the claim --
machine-targeted causes are enabled in a mode below machine or in machine
mode with status.MIE; supervisor-delegated causes in supervisor mode with
status.SIE, in a mode below supervisor, or in guest mode; causes delegated
on to virtual supervisor only in guest mode with the virtual-supervisor
enable. -/
def spec_intr_global_enable (st : CPUState) (irq : Nat) : Bool :=
  if st.hideleg.testBit irq && st.mideleg.testBit irq then
    (st.v && decide (st.mode = MODE_S) && st.vsstatus.sie) ||
    (st.v && decide (st.mode < MODE_S))
  else if st.mideleg.testBit irq then
    (decide (st.mode = MODE_S) && st.mstatus.sie) ||
    decide (st.mode < MODE_S) || st.v
  else
    (decide (st.mode = MODE_M) && st.mstatus.mie) || decide (st.mode < MODE_M)

/-- Modelled from the spec: query_pending_interrupt as the spec words it --
the first cause in the fixed priority order whose bit is set in both mie and
mip and which is globally enabled, else the sentinel empty value. -/
def spec_query_pending_interrupt (st : CPUState) : Nat :=
  match intr_priority_order.find? (fun irq =>
      st.mie.testBit irq && st.mip.testBit irq &&
      spec_intr_global_enable st irq) with
  | some irq => irq ||| INTR_BIT
  | none => INTR_EMPTY

/-- Memory image for concrete first-stage scenarios: an Sv39 table rooted at
ppn 0x1000 whose level-2 entry 0 points to ppn 0x2000, whose level-1 entry
0x80 points to ppn 0x3000, and whose level-0 entry 0 is a leaf for physical
page 0x80000 with the given low flag byte. -/
def mem_sv39 (flags : Nat) : Nat → Nat := fun a =>
  if a = 0x1000 <<< 12 then (0x2000 <<< 10) ||| 1
  else if a = (0x2000 <<< 12) + 0x80 * 8 then (0x3000 <<< 10) ||| 1
  else if a = 0x3000 <<< 12 then (0x80000 <<< 10) ||| flags
  else 0

/-- Memory image for concrete superpage scenarios: the level-1 entry 0x80 of
the same root is itself a leaf with physical page number ppnLeaf and flags
valid, readable, executable, accessed, dirty. -/
def mem_sv39_super (ppnLeaf : Nat) : Nat → Nat := fun a =>
  if a = 0x1000 <<< 12 then (0x2000 <<< 10) ||| 1
  else if a = (0x2000 <<< 12) + 0x80 * 8 then (ppnLeaf <<< 10) ||| 0xcb
  else 0

/-- Concrete supervisor-mode state with Sv39 translation rooted at ppn
0x1000. -/
def st_sv39 : CPUState :=
  { st_init with mode := MODE_S, satp := { mode := 8, ppn := 0x1000 } }

/-- The root entry of the non-leaf counterexample: valid, read, write and
execute all clear, but with a nonzero pad field (bit 54 set). -/
def pte_pad_nonleaf : Nat := 2 ^ 54 + 1

/-- Memory image whose Sv39 root entry 0 is pte_pad_nonleaf. -/
def mem_pad_nonleaf : Nat → Nat := fun a =>
  if a = 0x1000 <<< 12 then pte_pad_nonleaf else 0

/-- Concrete guest state with the G-stage rooted at ppn 0x1000 in Sv39x4
mode. -/
def st_gstage : CPUState :=
  { st_init with hgatp := { mode := 8, ppn := 0x1000 } }

/-- G-stage memory image whose root (level-2) entry 0 is a superpage leaf
with a misaligned physical base (ppn 0x123): flags valid, readable,
executable, user, accessed, dirty. -/
def mem_gstage_misaligned : Nat → Nat := fun a =>
  if a = 0x1000 <<< 12 then (0x123 <<< 10) ||| 0xdb else 0

/-- Concrete state for the PMP scenarios: entry 0 is a top-of-range entry
covering [0, 0x1000) with all of R, W and X granted. -/
def st_pmp : CPUState :=
  { st_init with
    pmpaddr := fun i => if i = 0 then 0x400 else 0,
    pmpcfg := fun i => if i = 0 then PMP_TOR ||| 7 else 0 }

/-- Concrete state for the delegation scenarios: guest mode on in supervisor
mode, with the virtual-supervisor timer interrupt (bit 6) delegated at both
the machine and the hypervisor level, and distinct trap vector bases. -/
def st_deleg : CPUState :=
  { st_init with
    mode := MODE_S, v := true,
    mideleg := 1 <<< 6, hideleg := 1 <<< 6,
    mtvec := 0x1000, stvec := 0x2000, vstvec := 0x3000 }

/-- The canonical-address property of the claim: the upper bits above the
boundary bit B are sign-extended copies of bit B. -/
def canonical_ok (B vaddr : Nat) : Prop :=
  ∀ i, B < i → i < 64 → vaddr.testBit i = vaddr.testBit B

/-- C9: whenever the access footprint crosses a page boundary, that is
(vaddr AND PAGE_MASK) + len exceeds the page size, isa_mmu_translate
returns the distinguished cross-page result with the architectural state
unchanged, for every memory image (so no page table is walked) and without
raising any exception. -/
theorem isa_mmu_translate_cross_page (st : CPUState) (mem : Nat → Nat)
    (vaddr len ty : Nat) (h : (vaddr &&& PAGE_MASK) + len > PAGE_SIZE) :
    isa_mmu_translate st mem vaddr len ty =
      Except.ok (MEM_RET_CROSS_PAGE, st) := by
  unfold isa_mmu_translate
  simp [h]

/-- Witness for C9 at vaddr 0xfff, len 8. -/
theorem isa_mmu_translate_cross_page_witness :
    (0xfff &&& PAGE_MASK) + 8 > PAGE_SIZE ∧
    isa_mmu_translate st_init (fun _ => 0) 0xfff 8 MEM_TYPE_READ =
      Except.ok (MEM_RET_CROSS_PAGE, st_init) :=
  ⟨by decide,
   isa_mmu_translate_cross_page st_init (fun _ => 0) 0xfff 8 MEM_TYPE_READ
     (by decide)⟩

set_option maxHeartbeats 2000000 in
/-- Helper: the Virtual-Supervisor branch writes vscause/vsepc, keeps guest
mode on and enters supervisor mode with a vstvec-derived PC, while leaving
the supervisor and machine trap CSRs untouched. -/
theorem intr_to_VS_sm_frame (st : CPUState) (NO epc : Nat) :
    (intr_to_VS st NO epc).2.scause = st.scause ∧
    (intr_to_VS st NO epc).2.sepc = st.sepc ∧
    (intr_to_VS st NO epc).2.stval = st.stval ∧
    (intr_to_VS st NO epc).2.mcause = st.mcause ∧
    (intr_to_VS st NO epc).2.mepc = st.mepc ∧
    (intr_to_VS st NO epc).2.mstatus.mpp = st.mstatus.mpp ∧
    (intr_to_VS st NO epc).2.mstatus.mpie = st.mstatus.mpie ∧
    (intr_to_VS st NO epc).2.mstatus.mie = st.mstatus.mie ∧
    (intr_to_VS st NO epc).2.vscause =
      (if NO.testBit 63 then (((NO % 2 ^ 63) + (2 ^ 64 - 1)) % 2 ^ 64) ||| INTR_BIT
       else NO) ∧
    (intr_to_VS st NO epc).2.vsepc = epc ∧
    (intr_to_VS st NO epc).2.v = true ∧
    (intr_to_VS st NO epc).2.mode = MODE_S ∧
    (intr_to_VS st NO epc).1 = get_trap_pc st.vstvec (intr_to_VS st NO epc).2.vscause := by
  unfold intr_to_VS
  repeat' split
  all_goals simp [update_mmu_state, get_trap_pc]

set_option maxHeartbeats 2000000 in
/-- Helper: the Supervisor branch leaves the machine trap CSRs untouched. -/
theorem intr_to_S_m_frame (st : CPUState) (h : Bool) (NO epc : Nat) :
    (intr_to_S st h NO epc).2.mcause = st.mcause ∧
    (intr_to_S st h NO epc).2.mepc = st.mepc ∧
    (intr_to_S st h NO epc).2.mstatus.mpp = st.mstatus.mpp ∧
    (intr_to_S st h NO epc).2.mstatus.mpie = st.mstatus.mpie ∧
    (intr_to_S st h NO epc).2.mstatus.mie = st.mstatus.mie := by
  cases hmprv : st.mstatus.mprv <;> cases hsv : st.v <;>
    (unfold intr_to_S
     simp only [hmprv, hsv]
     repeat' split
     all_goals simp [update_mmu_state])

set_option maxHeartbeats 2000000 in
/-- Helper: the Machine branch leaves the supervisor and virtual-supervisor
trap CSRs untouched. -/
theorem intr_to_M_s_frame (st : CPUState) (h : Bool) (NO epc : Nat) :
    (intr_to_M st h NO epc).2.scause = st.scause ∧
    (intr_to_M st h NO epc).2.sepc = st.sepc ∧
    (intr_to_M st h NO epc).2.stval = st.stval ∧
    (intr_to_M st h NO epc).2.mstatus.spp = st.mstatus.spp ∧
    (intr_to_M st h NO epc).2.mstatus.spie = st.mstatus.spie ∧
    (intr_to_M st h NO epc).2.mstatus.sie = st.mstatus.sie ∧
    (intr_to_M st h NO epc).2.vscause = st.vscause ∧
    (intr_to_M st h NO epc).2.vsepc = st.vsepc ∧
    (intr_to_M st h NO epc).2.vstval = st.vstval := by
  unfold intr_to_M
  repeat' split
  all_goals simp [update_mmu_state]

/-- C5: for a cause whose bit is set both in the machine delegation register
(mideleg for interrupts, medeleg for exceptions) and in the hypervisor
delegation register (hideleg/hedeleg), with guest mode active and the mode
below machine, raise_intr targets Virtual-Supervisor mode: it writes vscause
(interrupt causes remapped down by one) and vsepc, leaves guest mode on,
sets the mode to Supervisor, returns the vstvec-derived trap PC, and does
not touch the plain-supervisor scause and sepc. -/
theorem raise_intr_double_deleg_VS (st : CPUState) (NO epc : Nat)
    (hv : st.v = true) (hm : st.mode < MODE_M)
    (hmd : (if NO.testBit 63 then st.mideleg else st.medeleg).testBit (NO % 256) = true)
    (hhd : (if NO.testBit 63 then st.hideleg else st.hedeleg).testBit (NO % 256) = true) :
    (raise_intr st NO epc).2.vscause =
      (if NO.testBit 63 then (((NO % 2 ^ 63) + (2 ^ 64 - 1)) % 2 ^ 64) ||| INTR_BIT
       else NO) ∧
    (raise_intr st NO epc).2.vsepc = epc ∧
    (raise_intr st NO epc).2.v = true ∧
    (raise_intr st NO epc).2.mode = MODE_S ∧
    (raise_intr st NO epc).1 = get_trap_pc st.vstvec (raise_intr st NO epc).2.vscause ∧
    (raise_intr st NO epc).2.scause = st.scause ∧
    (raise_intr st NO epc).2.sepc = st.sepc := by
  have hVS : intr_deleg_VS { st with hld_st := false } NO = true := by
    simp [intr_deleg_VS, intr_deleg_S, hv, hm, hmd, hhd]
  have hE : raise_intr st NO epc = intr_to_VS { st with hld_st := false } NO epc := by
    unfold raise_intr
    simp only [hVS, if_true]
  rw [hE]
  obtain ⟨h1, h2, _, _, _, _, _, _, h9, h10, h11, h12, h13⟩ :=
    intr_to_VS_sm_frame { st with hld_st := false } NO epc
  exact ⟨h9, h10, h11, h12, h13, h1, h2⟩

/-- Witness for C5: the virtual-supervisor timer interrupt delegated at both
levels from guest supervisor mode lands in VS mode with the vstvec-derived
PC. -/
theorem raise_intr_double_deleg_VS_witness :
    st_deleg.v = true ∧ st_deleg.mode < MODE_M ∧
    (raise_intr st_deleg (INTR_BIT ||| 6) 0x8000).2.mode = MODE_S ∧
    (raise_intr st_deleg (INTR_BIT ||| 6) 0x8000).2.v = true ∧
    (raise_intr st_deleg (INTR_BIT ||| 6) 0x8000).2.vsepc = 0x8000 :=
  ⟨by decide, by decide,
   (raise_intr_double_deleg_VS st_deleg (INTR_BIT ||| 6) 0x8000
     (by decide) (by decide) (by decide) (by decide)).2.2.2.1,
   (raise_intr_double_deleg_VS st_deleg (INTR_BIT ||| 6) 0x8000
     (by decide) (by decide) (by decide) (by decide)).2.2.1,
   (raise_intr_double_deleg_VS st_deleg (INTR_BIT ||| 6) 0x8000
     (by decide) (by decide) (by decide) (by decide)).2.1⟩

/-- C10: raise_intr writes only the selected target level's trap CSRs.  With
no supervisor delegation (machine target, which also rules out the
virtual-supervisor target) the supervisor and virtual-supervisor trap CSRs
scause, sepc, stval, mstatus.SPP/SPIE/SIE, vscause, vsepc and vstval are
unchanged; with supervisor delegation (supervisor or virtual-supervisor
target) the machine trap CSRs mcause, mepc and mstatus.MPP/MPIE/MIE are
unchanged. -/
theorem raise_intr_frame (st : CPUState) (NO epc : Nat) :
    (intr_deleg_S st NO = false →
       (raise_intr st NO epc).2.scause = st.scause ∧
       (raise_intr st NO epc).2.sepc = st.sepc ∧
       (raise_intr st NO epc).2.stval = st.stval ∧
       (raise_intr st NO epc).2.mstatus.spp = st.mstatus.spp ∧
       (raise_intr st NO epc).2.mstatus.spie = st.mstatus.spie ∧
       (raise_intr st NO epc).2.mstatus.sie = st.mstatus.sie ∧
       (raise_intr st NO epc).2.vscause = st.vscause ∧
       (raise_intr st NO epc).2.vsepc = st.vsepc ∧
       (raise_intr st NO epc).2.vstval = st.vstval) ∧
    (intr_deleg_S st NO = true →
       (raise_intr st NO epc).2.mcause = st.mcause ∧
       (raise_intr st NO epc).2.mepc = st.mepc ∧
       (raise_intr st NO epc).2.mstatus.mpp = st.mstatus.mpp ∧
       (raise_intr st NO epc).2.mstatus.mpie = st.mstatus.mpie ∧
       (raise_intr st NO epc).2.mstatus.mie = st.mstatus.mie) := by
  constructor
  · intro hS
    have hVS : intr_deleg_VS { st with hld_st := false } NO = false := by
      have h0 : intr_deleg_S { st with hld_st := false } NO = false := hS
      simp [intr_deleg_VS, h0]
    have hE : raise_intr st NO epc =
        intr_to_M { st with hld_st := false } st.hld_st NO epc := by
      unfold raise_intr
      simp only [hVS, hS, Bool.false_eq_true, if_false]
    rw [hE]
    exact intr_to_M_s_frame { st with hld_st := false } st.hld_st NO epc
  · intro hS
    cases hVS : intr_deleg_VS { st with hld_st := false } NO with
    | true =>
      have hE : raise_intr st NO epc =
          intr_to_VS { st with hld_st := false } NO epc := by
        unfold raise_intr
        simp only [hVS, if_true]
      rw [hE]
      obtain ⟨_, _, _, h4, h5, h6, h7, h8, _⟩ :=
        intr_to_VS_sm_frame { st with hld_st := false } NO epc
      exact ⟨h4, h5, h6, h7, h8⟩
    | false =>
      have hE : raise_intr st NO epc =
          intr_to_S { st with hld_st := false } st.hld_st NO epc := by
        unfold raise_intr
        simp only [hVS, hS, Bool.false_eq_true, if_false, if_true]
      rw [hE]
      exact intr_to_S_m_frame { st with hld_st := false } st.hld_st NO epc

/-- Witness for C10: an undelegated illegal-instruction trap from the
baseline state leaves scause and vstval untouched. -/
theorem raise_intr_frame_witness :
    intr_deleg_S st_init EX_II = false ∧
    ((raise_intr st_init EX_II 0x44).2.scause = st_init.scause ∧
     (raise_intr st_init EX_II 0x44).2.sepc = st_init.sepc ∧
     (raise_intr st_init EX_II 0x44).2.stval = st_init.stval ∧
     (raise_intr st_init EX_II 0x44).2.mstatus.spp = st_init.mstatus.spp ∧
     (raise_intr st_init EX_II 0x44).2.mstatus.spie = st_init.mstatus.spie ∧
     (raise_intr st_init EX_II 0x44).2.mstatus.sie = st_init.mstatus.sie ∧
     (raise_intr st_init EX_II 0x44).2.vscause = st_init.vscause ∧
     (raise_intr st_init EX_II 0x44).2.vsepc = st_init.vsepc ∧
     (raise_intr st_init EX_II 0x44).2.vstval = st_init.vstval) :=
  ⟨by decide, (raise_intr_frame st_init EX_II 0x44).1 (by decide)⟩

/-- C8: isa_query_intr equals the spec-side query: it scans the fixed
priority order machine-external, machine-software, machine-timer,
supervisor-external, supervisor-software, supervisor-timer, the user
variants, then the virtual-supervisor variants, the guest-external line and
the counter-overflow line, and returns the first cause whose bit is set in
both mie and mip and which is globally enabled under the
delegation-dependent rule of spec_intr_global_enable, or the sentinel empty
value when no such cause exists. -/
theorem isa_query_intr_eq_spec (st : CPUState) :
    isa_query_intr st = spec_query_pending_interrupt st := by
  have hge : ∀ irq : Nat,
      (if st.hideleg.testBit irq && st.mideleg.testBit irq then
        (st.v && decide (st.mode = MODE_S) && st.vsstatus.sie) ||
        (st.v && decide (st.mode < MODE_S))
      else if st.mideleg.testBit irq then
        (decide (st.mode = MODE_S) && st.mstatus.sie) ||
        decide (st.mode < MODE_S) || st.v
      else
        (decide (st.mode = MODE_M) && st.mstatus.mie) ||
        decide (st.mode < MODE_M)) = spec_intr_global_enable st irq :=
    fun _ => rfl
  have hloop : ∀ l : List Nat, query_intr_loop st (st.mie &&& st.mip) l =
      (match l.find? (fun irq => st.mie.testBit irq && st.mip.testBit irq &&
          spec_intr_global_enable st irq) with
       | some irq => irq ||| INTR_BIT
       | none => INTR_EMPTY) := by
    intro l
    induction l with
    | nil => rfl
    | cons irq rest ih =>
      simp only [query_intr_loop, List.find?_cons, hge]
      cases h1 : st.mie.testBit irq <;> cases h2 : st.mip.testBit irq <;>
        cases h3 : spec_intr_global_enable st irq <;>
        simp [Nat.testBit_and, h1, h2, h3, ih]
  unfold isa_query_intr spec_query_pending_interrupt
  by_cases h0 : st.mie &&& st.mip = 0
  · have hnone : intr_priority_order.find? (fun irq =>
        st.mie.testBit irq && st.mip.testBit irq &&
        spec_intr_global_enable st irq) = none := by
      rw [List.find?_eq_none]
      intro irq _
      have : (st.mie.testBit irq && st.mip.testBit irq) = false := by
        rw [← Nat.testBit_and, h0]
        exact Nat.zero_testBit irq
      simp [this]
    simp [h0, hnone]
  · simp only [h0, if_false]
    exact hloop intr_priority_order

/-- Helper: the trap-value register selected by the delegation target
receives the faulting address. -/
theorem intr_tval_write_cases (st : CPUState) (ex vaddr : Nat) :
    (intr_deleg_VS st ex = true → (intr_tval_write st ex vaddr).vstval = vaddr) ∧
    (intr_deleg_VS st ex = false → intr_deleg_S st ex = true →
      (intr_tval_write st ex vaddr).stval = vaddr) ∧
    (intr_deleg_S st ex = false → (intr_tval_write st ex vaddr).mtval = vaddr) := by
  refine ⟨fun h => ?_, fun h1 h2 => ?_, fun h => ?_⟩
  · simp [intr_tval_write, h]
  · simp [intr_tval_write, h1, h2]
  · have hVS : intr_deleg_VS st ex = false := by
      unfold intr_deleg_VS
      simp [h]
    simp [intr_tval_write, hVS, h]

/-- C1: check_permission permits an access only under the access-type rule:
an instruction fetch only with the execute bit, a read only with the read
bit or with the execute bit when mstatus.MXR (or vsstatus.MXR under
virtualization) is set, a write only with the write bit; a user page
accessed from supervisor mode is permitted only when the applicable SUM bit
is set and the access is not a fetch.  On any failure the access-type
specific page fault (instruction/load/store) is raised with the faulting
virtual address recorded in the trap-value register selected by the current
delegation target (vstval, stval or mtval).  Stated for ordinary accesses:
no hypervisor load-with-execute access (hlvx clear) and no atomic operation
in flight (amo clear). -/
theorem check_permission_rules (st : CPUState) (pte : Nat) (ok0 : Bool)
    (vaddr ty : Nat) (virt : Bool) (mode : Nat)
    (hhlvx : st.hlvx = false) (hamo : st.amo = false)
    (hty : ty = MEM_TYPE_IFETCH ∨ ty = MEM_TYPE_READ ∨ ty = MEM_TYPE_WRITE) :
    (check_permission st pte true vaddr ty virt mode = Except.ok () →
       ((ty = MEM_TYPE_IFETCH → pte_x pte = true) ∧
        (ty = MEM_TYPE_READ →
          (pte_r pte || ((st.mstatus.mxr || (st.vsstatus.mxr && virt)) && pte_x pte)) = true) ∧
        (ty = MEM_TYPE_WRITE → pte_w pte = true) ∧
        (pte_u pte = true → mode = MODE_S →
          (if virt then st.vsstatus.sum else st.mstatus.sum) = true ∧
          ty ≠ MEM_TYPE_IFETCH))) ∧
    (∀ c st', check_permission st pte ok0 vaddr ty virt mode = Except.error (c, st') →
       c = (if ty = MEM_TYPE_IFETCH then EX_IPF
            else if ty = MEM_TYPE_READ then EX_LPF else EX_SPF) ∧
       (intr_deleg_VS st c = true → st'.vstval = vaddr) ∧
       (intr_deleg_VS st c = false → intr_deleg_S st c = true → st'.stval = vaddr) ∧
       (intr_deleg_S st c = false → st'.mtval = vaddr)) := by
  rcases hty with rfl | rfl | rfl
  · constructor
    · intro hsucc
      simp [check_permission] at hsucc
      refine ⟨fun _ => hsucc.1.2, fun h => absurd h (by decide),
        fun h => absurd h (by decide),
        fun hu hS => absurd (hsucc.1.1.2 hu) (by simp [hS])⟩
    · intro c st' herr
      unfold check_permission at herr
      rw [show ((MEM_TYPE_IFETCH == MEM_TYPE_IFETCH)) = true from rfl] at herr
      simp only [if_true] at herr
      cases virt <;>
        (simp [hamo] at herr
         split at herr
         · injection herr with h
           injection h with h1 h2
           subst h1; subst h2
           exact ⟨by decide, (intr_tval_write_cases st EX_IPF vaddr).1,
             (intr_tval_write_cases st EX_IPF vaddr).2.1,
             (intr_tval_write_cases st EX_IPF vaddr).2.2⟩
         · exact Except.noConfusion herr)
  · constructor
    · intro hsucc
      simp [check_permission, hhlvx, MEM_TYPE_READ, MEM_TYPE_IFETCH] at hsucc
      refine ⟨fun h => absurd h (by decide), fun _ => ?_,
        fun h => absurd h (by decide), fun hu hS => ?_⟩
      · have hcl := hsucc.1.2
        cases hr : pte_r pte
        · have h2 := hcl hr
          cases hmxr : st.mstatus.mxr
          · have h3 := h2.1 hmxr
            simp [hmxr, h3.1, h3.2, h2.2]
          · simp [hmxr, h2.2]
        · simp
      · have h4 := hsucc.1.1.2 hu hS
        refine ⟨?_, by decide⟩
        cases hv : virt
        · simp [hv] at h4 ⊢; exact h4
        · simp [hv] at h4 ⊢; exact h4
    · intro c st' herr
      unfold check_permission at herr
      rw [show ((MEM_TYPE_READ == MEM_TYPE_IFETCH)) = false from rfl] at herr
      rw [show ((MEM_TYPE_READ == MEM_TYPE_READ)) = true from rfl] at herr
      simp only [Bool.false_eq_true, if_false, if_true, hamo, hhlvx] at herr
      cases virt <;>
        (simp [hamo] at herr
         split at herr
         · injection herr with h
           injection h with h1 h2
           subst h1; subst h2
           exact ⟨by decide, (intr_tval_write_cases st EX_LPF vaddr).1,
             (intr_tval_write_cases st EX_LPF vaddr).2.1,
             (intr_tval_write_cases st EX_LPF vaddr).2.2⟩
         · exact Except.noConfusion herr)
  · constructor
    · intro hsucc
      simp [check_permission, MEM_TYPE_WRITE, MEM_TYPE_READ, MEM_TYPE_IFETCH] at hsucc
      refine ⟨fun h => absurd h (by decide), fun h => absurd h (by decide),
        fun _ => hsucc.1.2, fun hu hS => ?_⟩
      have h4 := hsucc.1.1.2 hu hS
      refine ⟨?_, by decide⟩
      cases hv : virt
      · simp [hv] at h4 ⊢; exact h4
      · simp [hv] at h4 ⊢; exact h4
    · intro c st' herr
      unfold check_permission at herr
      rw [show ((MEM_TYPE_WRITE == MEM_TYPE_IFETCH)) = false from rfl] at herr
      rw [show ((MEM_TYPE_WRITE == MEM_TYPE_READ)) = false from rfl] at herr
      simp only [Bool.false_eq_true, if_false] at herr
      cases virt <;>
        (simp [hamo] at herr
         split at herr
         · injection herr with h
           injection h with h1 h2
           subst h1; subst h2
           exact ⟨by decide, (intr_tval_write_cases st EX_SPF vaddr).1,
             (intr_tval_write_cases st EX_SPF vaddr).2.1,
             (intr_tval_write_cases st EX_SPF vaddr).2.2⟩
         · exact Except.noConfusion herr)

/-- Witness for C1: a readable user page permits a user-mode read, and a
fetch from an executable-only kernel page faults with EX_IPF into mtval. -/
theorem check_permission_rules_witness :
    check_permission st_init 0xdf true 0x1000 MEM_TYPE_READ false MODE_U =
      Except.ok () ∧
    (pte_r 0xdf ||
      ((st_init.mstatus.mxr || (st_init.vsstatus.mxr && false)) && pte_x 0xdf)) = true ∧
    check_permission st_init 0xc9 true 0x2000 MEM_TYPE_IFETCH false MODE_U =
      Except.error (EX_IPF, intr_tval_write st_init EX_IPF 0x2000) ∧
    EX_IPF = (if MEM_TYPE_IFETCH = MEM_TYPE_IFETCH then EX_IPF
              else if MEM_TYPE_IFETCH = MEM_TYPE_READ then EX_LPF else EX_SPF) :=
  ⟨rfl,
   ((check_permission_rules st_init 0xdf true 0x1000 MEM_TYPE_READ false MODE_U
      rfl rfl (Or.inr (Or.inl rfl))).1 rfl).2.1 rfl,
   rfl,
   ((check_permission_rules st_init 0xc9 true 0x2000 MEM_TYPE_IFETCH false MODE_U
      rfl rfl (Or.inl rfl)).2 EX_IPF (intr_tval_write st_init EX_IPF 0x2000) rfl).1⟩

/-- Helper: an address whose bits from B on are all zero satisfies the
canonical property at B. -/
theorem canonical_of_shift_eq_zero (B vaddr : Nat) (h : vaddr >>> B = 0) :
    canonical_ok B vaddr := by
  intro i hBi _
  have hb : ∀ j, vaddr.testBit (B + j) = false := by
    intro j
    have := Nat.testBit_shiftRight (x := vaddr) (i := B) (j := j)
    rw [h, Nat.zero_testBit] at this
    exact this.symm
  have h1 : vaddr.testBit i = false := by
    have := hb (i - B)
    rwa [Nat.add_sub_cancel' (Nat.le_of_lt hBi)] at this
  have h2 : vaddr.testBit B = false := by
    have := hb 0
    rwa [Nat.add_zero] at this
  rw [h1, h2]

/-- Helper: an address whose bits from B up to 63 are all ones satisfies the
canonical property at B. -/
theorem canonical_of_shift_eq_ones (B W vaddr : Nat) (hBW : B + W = 64)
    (hW : 0 < W) (h : vaddr >>> B = 2 ^ W - 1) : canonical_ok B vaddr := by
  intro i hBi hi64
  have hb : ∀ j, vaddr.testBit (B + j) = decide (j < W) := by
    intro j
    have := Nat.testBit_shiftRight (x := vaddr) (i := B) (j := j)
    rw [h, Nat.testBit_two_pow_sub_one] at this
    exact this.symm
  have h1 : vaddr.testBit i = true := by
    have := hb (i - B)
    rw [Nat.add_sub_cancel' (Nat.le_of_lt hBi)] at this
    rw [this]
    simp only [decide_eq_true_eq]
    omega
  have h2 : vaddr.testBit B = true := by
    have := hb 0
    rw [Nat.add_zero] at this
    rw [this]
    simp only [decide_eq_true_eq]
    omega
  rw [h1, h2]

/-- C2: with translation enabled (effective mode below machine and satp in
Sv39 or Sv48 mode, outside guest mode), a virtual address whose upper bits
are not a correct sign-extension of the canonical boundary bit (bit 38 in
39-bit mode, bit 47 in 48-bit mode) makes isa_mmu_check raise the
access-type-specific page fault (instruction/load/store) with the address
recorded in the delegation-selected trap-value register; isa_mmu_check
takes no memory argument, so the fault is raised before any page table can
be read. -/
theorem isa_mmu_check_noncanonical (st : CPUState) (vaddr len ty : Nat)
    (hv : st.v = false) (hhld : st.hld_st = false) (hamo : st.amo = false)
    (hty : ty = MEM_TYPE_IFETCH ∨ ty = MEM_TYPE_READ ∨ ty = MEM_TYPE_WRITE)
    (halign : vaddr &&& (len - 1) = 0)
    (hmode : (if st.mstatus.mprv && !(ty == MEM_TYPE_IFETCH) then st.mstatus.mpp
              else st.mode) < MODE_M)
    (hsatp : st.satp.mode = 8 ∨ st.satp.mode = 9)
    (hnc : ¬ canonical_ok (if st.satp.mode = 8 then 38 else 47) vaddr) :
    isa_mmu_check st vaddr len ty =
      Except.error
        ((if ty = MEM_TYPE_IFETCH then EX_IPF
          else if ty = MEM_TYPE_READ then EX_LPF else EX_SPF),
         intr_tval_write st
           (if ty = MEM_TYPE_IFETCH then EX_IPF
            else if ty = MEM_TYPE_READ then EX_LPF else EX_SPF) vaddr) := by
  have hd : decide ((if st.mstatus.mprv && !(ty == MEM_TYPE_IFETCH)
      then st.mstatus.mpp else st.mode) < MODE_M) = true := decide_eq_true hmode
  rcases hty with rfl | rfl | rfl <;> rcases hsatp with hm | hm
  all_goals
    first
    | (rw [if_pos hm] at hnc
       have hz : decide (vaddr >>> 38 = 0) = false :=
         decide_eq_false fun h => hnc (canonical_of_shift_eq_zero 38 vaddr h)
       have ho : decide (vaddr >>> 38 = 2 ^ 26 - 1) = false :=
         decide_eq_false fun h =>
           hnc (canonical_of_shift_eq_ones 38 26 vaddr (by norm_num) (by norm_num) h)
       simp [isa_mmu_check, isa_misalign_data_addr_check, halign, hv, hhld, hamo,
         hm, hd, hz, ho, MEM_TYPE_IFETCH, MEM_TYPE_READ, MEM_TYPE_WRITE]
       refine ⟨by simpa [MEM_TYPE_READ, MEM_TYPE_IFETCH, MEM_TYPE_WRITE] using hmode, ?_⟩
       have hq := of_decide_eq_false ho
       norm_num at hq ⊢
       exact hq)
    | (rw [if_neg (by rw [hm]; norm_num)] at hnc
       have hz : decide (vaddr >>> 47 = 0) = false :=
         decide_eq_false fun h => hnc (canonical_of_shift_eq_zero 47 vaddr h)
       have ho : decide (vaddr >>> 47 = 2 ^ 17 - 1) = false :=
         decide_eq_false fun h =>
           hnc (canonical_of_shift_eq_ones 47 17 vaddr (by norm_num) (by norm_num) h)
       simp [isa_mmu_check, isa_misalign_data_addr_check, halign, hv, hhld, hamo,
                  hm, hd, hz, ho, MEM_TYPE_IFETCH, MEM_TYPE_READ, MEM_TYPE_WRITE]
       refine ⟨by simpa [MEM_TYPE_READ, MEM_TYPE_IFETCH, MEM_TYPE_WRITE] using hmode, ?_⟩
       have hq := of_decide_eq_false ho
       norm_num at hq ⊢
       exact hq)

/-- Witness for C2: a read at the non-canonical Sv39 address 2 ^ 38 from
supervisor mode faults with a load page fault into the machine trap-value
register. -/
theorem isa_mmu_check_noncanonical_witness :
    ¬ canonical_ok (if st_sv39.satp.mode = 8 then 38 else 47) 0x4000000000 ∧
    isa_mmu_check st_sv39 0x4000000000 8 MEM_TYPE_READ =
      Except.error (EX_LPF, intr_tval_write st_sv39 EX_LPF 0x4000000000) :=
  have hnc : ¬ canonical_ok (if st_sv39.satp.mode = 8 then 38 else 47) 0x4000000000 :=
    fun h => absurd (h 39 (by decide) (by decide)) (by decide)
  ⟨hnc, isa_mmu_check_noncanonical st_sv39 0x4000000000 8 MEM_TYPE_READ rfl rfl rfl
     (Or.inr (Or.inl rfl)) (by decide) (by decide) (Or.inl rfl) hnc⟩

/-- Helper: unfolding equation of the walk loop at level 0. -/
theorem ptw_walk_zero (st : CPUState) (mem : Nat → Nat) (vaddr ty : Nat)
    (virt : Bool) (pg_base : Nat) :
    ptw_walk st mem vaddr ty virt 0 pg_base =
      (match (if virt then gpa_stage st mem (pg_base + VPNi vaddr 0 * 8) vaddr ty
              else Except.ok (pg_base + VPNi vaddr 0 * 8, st)) with
       | Except.error e => Except.error e
       | Except.ok (p_pte, st) =>
         match pte_classify (mem p_pte) with
         | PteClass.bad => Except.ok (WalkRes.bad (mem p_pte), st)
         | PteClass.leaf => Except.ok (WalkRes.found (mem p_pte) 0, st)
         | PteClass.pointer => Except.ok (WalkRes.bad (mem p_pte), st)) := rfl

/-- Helper: unfolding equation of the walk loop at a positive level. -/
theorem ptw_walk_succ (st : CPUState) (mem : Nat → Nat) (vaddr ty : Nat)
    (virt : Bool) (l pg_base : Nat) :
    ptw_walk st mem vaddr ty virt (l + 1) pg_base =
      (match (if virt then gpa_stage st mem (pg_base + VPNi vaddr (l + 1) * 8) vaddr ty
              else Except.ok (pg_base + VPNi vaddr (l + 1) * 8, st)) with
       | Except.error e => Except.error e
       | Except.ok (p_pte, st) =>
         match pte_classify (mem p_pte) with
         | PteClass.bad => Except.ok (WalkRes.bad (mem p_pte), st)
         | PteClass.leaf => Except.ok (WalkRes.found (mem p_pte) (l + 1), st)
         | PteClass.pointer =>
           ptw_walk st mem vaddr ty virt l (pte_ppn (mem p_pte) <<< 12)) := rfl

/-- Helper: every leaf the walk loop stops on was classified as a leaf. -/
theorem ptw_walk_found_classified (mem : Nat → Nat) (vaddr ty : Nat) (virt : Bool) :
    ∀ (level : Nat) (st : CPUState) (pgb pte flevel : Nat) (st' : CPUState),
      ptw_walk st mem vaddr ty virt level pgb =
        Except.ok (WalkRes.found pte flevel, st') →
      pte_classify pte = PteClass.leaf := by
  intro level
  induction level with
  | zero =>
    intro st pgb pte flevel st' h
    rw [ptw_walk_zero] at h
    split at h
    · exact Except.noConfusion h
    · split at h
      · simp at h
      · rename_i hc
        simp only [Except.ok.injEq, Prod.mk.injEq, WalkRes.found.injEq] at h
        obtain ⟨⟨h1, _⟩, _⟩ := h
        rw [← h1]
        exact hc
      · simp at h
  | succ l ih =>
    intro st pgb pte flevel st' h
    rw [ptw_walk_succ] at h
    split at h
    · exact Except.noConfusion h
    · split at h
      · simp at h
      · rename_i hc
        simp only [Except.ok.injEq, Prod.mk.injEq, WalkRes.found.injEq] at h
        obtain ⟨⟨h1, _⟩, _⟩ := h
        rw [← h1]
        exact hc
      · exact ih _ _ _ _ _ h

/-- Helper: an entry classified as a pointer makes the walk descend exactly
one level, re-walking from the physical page number of the entry. -/
theorem ptw_walk_pointer_descends (st : CPUState) (mem : Nat → Nat)
    (vaddr ty : Nat) (l pg_base : Nat)
    (hp : pte_classify (mem (pg_base + VPNi vaddr (l + 1) * 8)) = PteClass.pointer) :
    ptw_walk st mem vaddr ty false (l + 1) pg_base =
      ptw_walk st mem vaddr ty false l
        (pte_ppn (mem (pg_base + VPNi vaddr (l + 1) * 8)) <<< 12) := by
  rw [ptw_walk_succ]
  simp [hp]

/-- Helper: a leaf classification means read, execute or nonzero pad bits. -/
theorem pte_classify_leaf_bits (pte : Nat) :
    pte_classify pte = PteClass.leaf →
    (pte_r pte || pte_x pte || decide (pte_pad pte ≠ 0)) = true := by
  unfold pte_classify
  split
  · intro h; exact absurd h (by simp)
  · split
    · rename_i hc
      intro _
      exact hc
    · intro h; exact absurd h (by simp)

/-- C4 (amended): a valid entry with read, write and execute clear AND zero
pad (reserved) bits is classified as a pointer, and the walker descends
exactly one level through its physical page number without any leaf
permission check; a leaf classification happens only for entries with read,
execute, or nonzero pad bits set.  The unamended claim, without the pad
condition, is refuted by ptw_pad_nonleaf_counterexample. -/
theorem ptw_nonleaf_descends (st : CPUState) (mem : Nat → Nat)
    (vaddr ty : Nat) (l pg_base : Nat)
    (hv : pte_v (mem (pg_base + VPNi vaddr (l + 1) * 8)) = true)
    (hr : pte_r (mem (pg_base + VPNi vaddr (l + 1) * 8)) = false)
    (hw : pte_w (mem (pg_base + VPNi vaddr (l + 1) * 8)) = false)
    (hx : pte_x (mem (pg_base + VPNi vaddr (l + 1) * 8)) = false)
    (hpad : pte_pad (mem (pg_base + VPNi vaddr (l + 1) * 8)) = 0) :
    pte_classify (mem (pg_base + VPNi vaddr (l + 1) * 8)) = PteClass.pointer ∧
    ptw_walk st mem vaddr ty false (l + 1) pg_base =
      ptw_walk st mem vaddr ty false l
        (pte_ppn (mem (pg_base + VPNi vaddr (l + 1) * 8)) <<< 12) ∧
    (∀ (level : Nat) (st0 : CPUState) (pgb pte flevel : Nat) (st' : CPUState),
       ptw_walk st0 mem vaddr ty false level pgb =
         Except.ok (WalkRes.found pte flevel, st') →
       (pte_r pte || pte_x pte || decide (pte_pad pte ≠ 0)) = true) := by
  have hp : pte_classify (mem (pg_base + VPNi vaddr (l + 1) * 8)) = PteClass.pointer := by
    simp [pte_classify, hv, hr, hw, hx, hpad]
  refine ⟨hp, ptw_walk_pointer_descends st mem vaddr ty l pg_base hp, ?_⟩
  intro level st0 pgb pte flevel st' h
  exact pte_classify_leaf_bits pte
    (ptw_walk_found_classified mem vaddr ty false level st0 pgb pte flevel st' h)

/-- Counterexample to C4 as stated: the valid root entry 2 ^ 54 + 1 has
read, write and execute all clear, yet the walker classifies it as a leaf
and stops at the root instead of descending one level (descending would
reach an invalid entry instead). -/
theorem ptw_pad_nonleaf_counterexample :
    pte_v pte_pad_nonleaf = true ∧ pte_r pte_pad_nonleaf = false ∧
    pte_w pte_pad_nonleaf = false ∧ pte_x pte_pad_nonleaf = false ∧
    mem_pad_nonleaf ((0x1000 <<< 12) + VPNi 0 2 * 8) = pte_pad_nonleaf ∧
    pte_classify pte_pad_nonleaf = PteClass.leaf ∧
    ptw_walk st_sv39 mem_pad_nonleaf 0 MEM_TYPE_READ false 2 (0x1000 <<< 12) =
      Except.ok (WalkRes.found pte_pad_nonleaf 2, st_sv39) ∧
    ptw_walk st_sv39 mem_pad_nonleaf 0 MEM_TYPE_READ false 2 (0x1000 <<< 12) ≠
      ptw_walk st_sv39 mem_pad_nonleaf 0 MEM_TYPE_READ false 1
        (pte_ppn pte_pad_nonleaf <<< 12) := by
  refine ⟨by decide, by decide, by decide, by decide, by decide, by decide, rfl, ?_⟩
  intro h
  rw [show ptw_walk st_sv39 mem_pad_nonleaf 0 MEM_TYPE_READ false 2 (0x1000 <<< 12) =
        Except.ok (WalkRes.found pte_pad_nonleaf 2, st_sv39) from rfl,
      show ptw_walk st_sv39 mem_pad_nonleaf 0 MEM_TYPE_READ false 1
          (pte_ppn pte_pad_nonleaf <<< 12) =
        Except.ok (WalkRes.bad 0, st_sv39) from rfl] at h
  simp at h

/-- Witness for C4 (amended): the root pointer entry of the concrete Sv39
table makes the walker descend from level 2 to level 1. -/
theorem ptw_nonleaf_descends_witness :
    pte_v (mem_sv39 0xcb ((0x1000 <<< 12) + VPNi 0x10000000 2 * 8)) = true ∧
    pte_r (mem_sv39 0xcb ((0x1000 <<< 12) + VPNi 0x10000000 2 * 8)) = false ∧
    pte_w (mem_sv39 0xcb ((0x1000 <<< 12) + VPNi 0x10000000 2 * 8)) = false ∧
    pte_x (mem_sv39 0xcb ((0x1000 <<< 12) + VPNi 0x10000000 2 * 8)) = false ∧
    pte_pad (mem_sv39 0xcb ((0x1000 <<< 12) + VPNi 0x10000000 2 * 8)) = 0 ∧
    ptw_walk st_sv39 (mem_sv39 0xcb) 0x10000000 MEM_TYPE_READ false 2 (0x1000 <<< 12) =
      ptw_walk st_sv39 (mem_sv39 0xcb) 0x10000000 MEM_TYPE_READ false 1
        (pte_ppn (mem_sv39 0xcb ((0x1000 <<< 12) + VPNi 0x10000000 2 * 8)) <<< 12) :=
  ⟨by decide, by decide, by decide, by decide, by decide,
   (ptw_nonleaf_descends st_sv39 (mem_sv39 0xcb) 0x10000000 MEM_TYPE_READ 1
     (0x1000 <<< 12) (by decide) (by decide) (by decide) (by decide) (by decide)).2.1⟩

set_option maxHeartbeats 1000000 in
/-- Helper: raise_guest_excep (mmu.c) on the unguided path raises the
guest-page-fault cause matching the access type (IGPF for fetch, LGPF for
plain reads, SGPF for writes and AMO reads) and records the virtual address
and the shifted guest-physical address in stval/htval when the cause is
delegated to S, else in mtval/mtval2. -/
theorem raise_guest_excep_spec (st : CPUState) (gpaddr vaddr ty : Nat)
    (hg : st.guided_exec = false) :
    ∀ c st2, raise_guest_excep st gpaddr vaddr ty = (c, st2) →
      c = (if ty = MEM_TYPE_IFETCH then EX_IGPF
           else if ty = MEM_TYPE_READ then (if st.amo then EX_SGPF else EX_LGPF)
           else EX_SGPF) ∧
      (intr_deleg_S st c = true → st2.stval = vaddr ∧ st2.htval = gpaddr >>> 2) ∧
      (intr_deleg_S st c = false → st2.mtval = vaddr ∧ st2.mtval2 = gpaddr >>> 2) := by
  intro c st2 heq
  unfold raise_guest_excep at heq
  rw [hg] at heq
  simp only [Bool.false_and, Bool.false_eq_true, if_false] at heq
  by_cases h0 : ty = MEM_TYPE_IFETCH
  · subst h0
    rw [if_pos rfl]
    simp only [show ((MEM_TYPE_IFETCH == MEM_TYPE_IFETCH)) = true from rfl, if_true] at heq
    cases hd : intr_deleg_S st EX_IGPF <;> rw [hd] at heq <;>
        simp only [Bool.false_eq_true, if_false, if_true] at heq
    · injection heq with h1 h2
      subst h1; subst h2
      exact ⟨rfl, fun h => by rw [hd] at h; exact Bool.noConfusion h, fun _ => ⟨rfl, rfl⟩⟩
    · injection heq with h1 h2
      subst h1; subst h2
      exact ⟨rfl, fun _ => ⟨rfl, rfl⟩, fun h => by rw [hd] at h; exact Bool.noConfusion h⟩
  · rw [if_neg h0]
    have hb0 : (ty == MEM_TYPE_IFETCH) = false := by
      simpa [MEM_TYPE_IFETCH] using h0
    rw [hb0] at heq
    simp only [Bool.false_eq_true, if_false] at heq
    by_cases h1 : ty = MEM_TYPE_READ
    · subst h1
      rw [if_pos rfl]
      simp only [show ((MEM_TYPE_READ == MEM_TYPE_READ)) = true from rfl, if_true] at heq
      cases hamo : st.amo <;> rw [hamo] at heq <;>
          simp only [Bool.false_eq_true, if_false, if_true] at heq
      · cases hd : intr_deleg_S st EX_LGPF <;> rw [hd] at heq <;>
            simp only [Bool.false_eq_true, if_false, if_true] at heq
        · injection heq with ha hb
          subst ha; subst hb
          exact ⟨rfl, fun h => by rw [hd] at h; exact Bool.noConfusion h, fun _ => ⟨rfl, rfl⟩⟩
        · injection heq with ha hb
          subst ha; subst hb
          exact ⟨rfl, fun _ => ⟨rfl, rfl⟩, fun h => by rw [hd] at h; exact Bool.noConfusion h⟩
      · cases hd : intr_deleg_S st EX_SGPF <;> rw [hd] at heq <;>
            simp only [Bool.false_eq_true, if_false, if_true] at heq
        · injection heq with ha hb
          subst ha; subst hb
          exact ⟨rfl, fun h => by rw [hd] at h; exact Bool.noConfusion h, fun _ => ⟨rfl, rfl⟩⟩
        · injection heq with ha hb
          subst ha; subst hb
          exact ⟨rfl, fun _ => ⟨rfl, rfl⟩, fun h => by rw [hd] at h; exact Bool.noConfusion h⟩
    · rw [if_neg h1]
      have hb1 : (ty == MEM_TYPE_READ) = false := by
        simpa [MEM_TYPE_READ] using h1
      rw [hb1] at heq
      simp only [Bool.false_eq_true, if_false] at heq
      cases hd : intr_deleg_S st EX_SGPF <;> rw [hd] at heq <;>
          simp only [Bool.false_eq_true, if_false, if_true] at heq
      · injection heq with ha hb
        subst ha; subst hb
        exact ⟨rfl, fun h => by rw [hd] at h; exact Bool.noConfusion h, fun _ => ⟨rfl, rfl⟩⟩
      · injection heq with ha hb
        subst ha; subst hb
        exact ⟨rfl, fun _ => ⟨rfl, rfl⟩, fun h => by rw [hd] at h; exact Bool.noConfusion h⟩

set_option maxHeartbeats 1000000 in
/-- C6 (amended): every exception gpa_stage raises is a guest page fault in
the dedicated cause space, recording the original virtual address and
gpaddr >> 2 in the trap-value registers of the delegation target;
out-of-range guest-physical addresses and walk rejections (invalid,
non-user or non-permitted entries) do raise it.  But a misaligned
superpage leaf does NOT raise: the walk result failMisalign makes
gpa_stage return MEM_RET_FAIL with no exception (mmu.c line 293),
contradicting the claim that no rejection returns a failure value
without raising. -/
theorem gpa_stage_rejections (st : CPUState) (mem : Nat → Nat)
    (gpaddr vaddr ty : Nat) (hg : st.guided_exec = false) :
    (∀ c st2, gpa_stage st mem gpaddr vaddr ty = Except.error (c, st2) →
       c = (if ty = MEM_TYPE_IFETCH then EX_IGPF
            else if ty = MEM_TYPE_READ then (if st.amo then EX_SGPF else EX_LGPF)
            else EX_SGPF) ∧
       (intr_deleg_S st c = true → st2.stval = vaddr ∧ st2.htval = gpaddr >>> 2) ∧
       (intr_deleg_S st c = false → st2.mtval = vaddr ∧ st2.mtval2 = gpaddr >>> 2)) ∧
    ((st.hgatp.mode = 8 ∧ gpaddr &&& wnot (2 ^ 41 - 1) ≠ 0) ∨
       (st.hgatp.mode = 9 ∧ gpaddr &&& wnot (2 ^ 50 - 1) ≠ 0) →
       ∃ e, gpa_stage st mem gpaddr vaddr ty = Except.error e) ∧
    (st.hgatp.mode = 8 → gpaddr &&& wnot (2 ^ 41 - 1) = 0 →
       gpa_walk { st with pt_level := 0 } mem gpaddr ty 2 (st.hgatp.ppn <<< 12) =
         GRes.reject →
       ∃ e, gpa_stage st mem gpaddr vaddr ty = Except.error e) ∧
    (st.hgatp.mode = 8 → gpaddr &&& wnot (2 ^ 41 - 1) = 0 →
       gpa_walk { st with pt_level := 0 } mem gpaddr ty 2 (st.hgatp.ppn <<< 12) =
         GRes.failMisalign →
       gpa_stage st mem gpaddr vaddr ty =
         Except.ok (MEM_RET_FAIL, { st with pt_level := 0 })) ∧
    (st.hgatp.mode = 9 → gpaddr &&& wnot (2 ^ 50 - 1) = 0 →
       gpa_walk { st with pt_level := 0 } mem gpaddr ty 3 (st.hgatp.ppn <<< 12) =
         GRes.reject →
       ∃ e, gpa_stage st mem gpaddr vaddr ty = Except.error e) ∧
    (st.hgatp.mode = 9 → gpaddr &&& wnot (2 ^ 50 - 1) = 0 →
       gpa_walk { st with pt_level := 0 } mem gpaddr ty 3 (st.hgatp.ppn <<< 12) =
         GRes.failMisalign →
       gpa_stage st mem gpaddr vaddr ty =
         Except.ok (MEM_RET_FAIL, { st with pt_level := 0 })) := by
  refine ⟨?_, ?_, ?_, ?_, ?_, ?_⟩
  · intro c st2 heq
    simp only [gpa_stage] at heq
    repeat' split at heq
    all_goals
      first
      | exact Except.noConfusion heq
      | (injection heq with h
         exact raise_guest_excep_spec { st with pt_level := 0 } gpaddr vaddr ty hg c st2 h)
  · rintro (⟨h8, hbad⟩ | ⟨h9, hbad⟩)
    · refine ⟨raise_guest_excep { st with pt_level := 0 } gpaddr vaddr ty, ?_⟩
      have hdt : decide (gpaddr &&& wnot (2 ^ 41 - 1) ≠ 0) = true := decide_eq_true hbad
      simp only [gpa_stage, h8, hdt]
      norm_num
    · refine ⟨raise_guest_excep { st with pt_level := 0 } gpaddr vaddr ty, ?_⟩
      have hdt : decide (gpaddr &&& wnot (2 ^ 50 - 1) ≠ 0) = true := decide_eq_true hbad
      simp only [gpa_stage, h9, hdt]
      norm_num
  · intro h8 hgood hw
    refine ⟨raise_guest_excep { st with pt_level := 0 } gpaddr vaddr ty, ?_⟩
    have hdf : decide (gpaddr &&& wnot (2 ^ 41 - 1) ≠ 0) = false := by
      rw [hgood]
      rfl
    simp only [gpa_stage, h8, hdf]
    norm_num [hw]
  · intro h8 hgood hw
    have hdf : decide (gpaddr &&& wnot (2 ^ 41 - 1) ≠ 0) = false := by
      rw [hgood]
      rfl
    simp only [gpa_stage, h8, hdf]
    norm_num [hw]
  · intro h9 hgood hw
    refine ⟨raise_guest_excep { st with pt_level := 0 } gpaddr vaddr ty, ?_⟩
    have hdf : decide (gpaddr &&& wnot (2 ^ 50 - 1) ≠ 0) = false := by
      rw [hgood]
      rfl
    simp only [gpa_stage, h9, hdf]
    norm_num [hw]
  · intro h9 hgood hw
    have hdf : decide (gpaddr &&& wnot (2 ^ 50 - 1) ≠ 0) = false := by
      rw [hgood]
      rfl
    simp only [gpa_stage, h9, hdf]
    norm_num [hw]

/-- Counterexample to C6 as stated: a G-stage root leaf with nonzero low
ppn bits (a misaligned 1 GiB superpage) makes gpa_stage return the failure
value MEM_RET_FAIL as a normal result, raising no exception at all. -/
theorem gpa_stage_misaligned_counterexample :
    gpa_stage st_gstage mem_gstage_misaligned 0x100000 0x100000 MEM_TYPE_READ =
      Except.ok (MEM_RET_FAIL, { st_gstage with pt_level := 0 }) := by rfl

/-- Witness for C6: the amended theorem applied to the concrete G-stage
state, showing an out-of-range guest-physical address raises. -/
theorem gpa_stage_rejections_witness :
    st_gstage.guided_exec = false ∧
    ∃ e, gpa_stage st_gstage mem_gstage_misaligned (2 ^ 41) 0x100000 MEM_TYPE_READ =
      Except.error e :=
  ⟨rfl, (gpa_stage_rejections st_gstage mem_gstage_misaligned (2 ^ 41) 0x100000
      MEM_TYPE_READ rfl).2.1 (Or.inl ⟨rfl, by decide⟩)⟩

/-- Helper: one-step unfolding of the PMP entry loop on a cons cell. -/
theorem pmp_check_loop_cons (st : CPUState) (addr len ty mode base j : Nat)
    (rest : List Nat) :
    pmp_check_loop st addr len ty mode base (j :: rest) =
      (let tor := ((st.pmpaddr j &&& pmp_tor_mask) <<< PMP_SHIFT) % 2 ^ 64
       let cfg := st.pmpcfg j
       if cfg &&& PMP_A ≠ 0 then
         let offs := sector_offsets len
         let any_match := offs.any (fun o => pmp_entry_match st base addr j o)
         let all_match := offs.all (fun o => pmp_entry_match st base addr j o)
         if any_match then
           if !all_match then false
           else
             (decide (mode = MODE_M) && decide (cfg &&& PMP_L = 0)) ||
             ((decide (ty = MEM_TYPE_READ) || decide (ty = MEM_TYPE_IFETCH_READ) ||
               decide (ty = MEM_TYPE_WRITE_READ)) && decide (cfg &&& PMP_R ≠ 0)) ||
             (decide (ty = MEM_TYPE_WRITE) && decide (cfg &&& PMP_W ≠ 0)) ||
             (decide (ty = MEM_TYPE_IFETCH) && decide (cfg &&& PMP_X ≠ 0))
         else pmp_check_loop st addr len ty mode tor rest
       else pmp_check_loop st addr len ty mode tor rest) := rfl

/-- Helper: scanning from any entry k up to a first deciding entry i whose
sectors only partially match, the PMP entry loop answers false, by
induction on the remaining entry count. -/
theorem pmp_check_loop_partial_aux (st : CPUState) (addr len ty mode i : Nat)
    (hact : st.pmpcfg i &&& PMP_A ≠ 0)
    (hsome : (sector_offsets len).any
        (fun o => pmp_entry_match st (pmp_base st i) addr i o) = true)
    (hnot : (sector_offsets len).all
        (fun o => pmp_entry_match st (pmp_base st i) addr i o) = false) :
    ∀ cnt k, k ≤ i → i < k + cnt →
      (∀ j, k ≤ j → j < i →
         st.pmpcfg j &&& PMP_A = 0 ∨
         (sector_offsets len).any
           (fun o => pmp_entry_match st (pmp_base st j) addr j o) = false) →
      pmp_check_loop st addr len ty mode (pmp_base st k)
        (List.range' k cnt) = false := by
  intro cnt
  induction cnt with
  | zero =>
    intro k hk hik hfirst
    omega
  | succ n ih =>
    intro k hk hik hfirst
    rw [List.range'_succ, pmp_check_loop_cons]
    by_cases hki : k = i
    · subst hki
      simp [hact, hsome, hnot]
    · have hklt : k < i := by omega
      rcases hfirst k (Nat.le_refl k) hklt with hA | hA
      · simp only [hA]
        norm_num
        exact ih (k + 1) (by omega) (by omega)
          (fun j hj1 hj2 => hfirst j (by omega) hj2)
      · simp only [hA]
        by_cases hAct : st.pmpcfg k &&& PMP_A = 0
        · simp only [hAct]
          norm_num
          exact ih (k + 1) (by omega) (by omega)
            (fun j hj1 hj2 => hfirst j (by omega) hj2)
        · simp [hAct, hA]
          exact ih (k + 1) (by omega) (by omega)
            (fun j hj1 hj2 => hfirst j (by omega) hj2)

/-- C7: an access some of whose 4-byte sectors match PMP entry i and some
of which do not, where no earlier active entry matches any sector, is
denied by isa_pmp_check_permission regardless of the entry permission
bits, the lock bit, the access type and the requesting mode. -/
theorem isa_pmp_check_permission_partial_overlap
    (st : CPUState) (N addr len ty out_mode i : Nat)
    (hi : i < N)
    (hact : st.pmpcfg i &&& PMP_A ≠ 0)
    (hsome : (sector_offsets len).any
        (fun o => pmp_entry_match st (pmp_base st i) addr i o) = true)
    (hnot : (sector_offsets len).all
        (fun o => pmp_entry_match st (pmp_base st i) addr i o) = false)
    (hfirst : ∀ j, j < i →
        st.pmpcfg j &&& PMP_A = 0 ∨
        (sector_offsets len).any
          (fun o => pmp_entry_match st (pmp_base st j) addr j o) = false) :
    isa_pmp_check_permission st N addr len ty out_mode = false := by
  simp only [isa_pmp_check_permission]
  rw [if_neg (by omega)]
  rw [List.range_eq_range']
  have h := pmp_check_loop_partial_aux st addr len ty
      (if out_mode = MODE_M then
        (if st.mstatus.mprv && !(ty == MEM_TYPE_IFETCH) then st.mstatus.mpp
         else st.mode)
       else out_mode)
      i hact hsome hnot N 0 (Nat.zero_le i) (by omega)
      (fun j _ hj => hfirst j hj)
  simpa [pmp_base] using h

/-- Witness for C7: a TOR entry covering [0, 0x1000) denies the 8-byte
access at 0xffc even from machine mode with full R/W/X permissions. -/
theorem isa_pmp_check_permission_partial_overlap_witness :
    ((0 : Nat) < 1 ∧ st_pmp.pmpcfg 0 &&& PMP_A ≠ 0 ∧
      (sector_offsets 8).any
        (fun o => pmp_entry_match st_pmp (pmp_base st_pmp 0) 0xffc 0 o) = true ∧
      (sector_offsets 8).all
        (fun o => pmp_entry_match st_pmp (pmp_base st_pmp 0) 0xffc 0 o) = false) ∧
    isa_pmp_check_permission st_pmp 1 0xffc 8 MEM_TYPE_READ MODE_M = false :=
  ⟨⟨by decide, by decide, by decide, by decide⟩,
   isa_pmp_check_permission_partial_overlap st_pmp 1 0xffc 8 MEM_TYPE_READ
     MODE_M 0 (by decide) (by decide) (by decide) (by decide)
     (fun j hj => absurd hj (Nat.not_lt_zero j))⟩

/-- Helper: check_permission invoked with the ok flag false (the bad label
of ptw) raises unconditionally, whatever the entry, type, mode and state. -/
theorem check_permission_fail (st : CPUState) (pte vaddr ty : Nat)
    (virt : Bool) (mode : Nat) :
    ∃ e, check_permission st pte false vaddr ty virt mode = Except.error e := by
  simp only [check_permission, Bool.false_and, Bool.not_false, Bool.and_true]
  split
  · exact ⟨_, rfl⟩
  · split
    · exact ⟨_, rfl⟩
    · exact ⟨_, rfl⟩

/-- Helper: the bad label of ptw always ends in a raised exception; its
trailing MEM_RET_FAIL return is unreachable. -/
theorem ptw_bad_errors (st : CPUState) (pte vaddr ty : Nat)
    (virt : Bool) (mode : Nat) :
    ∃ e, ptw_bad st pte vaddr ty virt mode = Except.error e := by
  obtain ⟨e, he⟩ := check_permission_fail st pte vaddr ty virt mode
  exact ⟨e, by unfold ptw_bad; rw [he]⟩

/-- Helper: the level at which the walk loop finds a leaf never exceeds the
starting level. -/
theorem ptw_walk_found_level_le (mem : Nat → Nat) (vaddr ty : Nat) (virt : Bool) :
    ∀ (level : Nat) (st : CPUState) (pgb pte flevel : Nat) (st1 : CPUState),
      ptw_walk st mem vaddr ty virt level pgb =
        Except.ok (WalkRes.found pte flevel, st1) →
      flevel ≤ level := by
  intro level
  induction level with
  | zero =>
    intro st pgb pte flevel st1 h
    rw [ptw_walk_zero] at h
    split at h
    · exact Except.noConfusion h
    · split at h
      · simp at h
      · simp only [Except.ok.injEq, Prod.mk.injEq, WalkRes.found.injEq] at h
        obtain ⟨⟨_, h2⟩, _⟩ := h
        omega
      · simp at h
  | succ l ih =>
    intro st pgb pte flevel st1 h
    rw [ptw_walk_succ] at h
    split at h
    · exact Except.noConfusion h
    · split at h
      · simp at h
      · simp only [Except.ok.injEq, Prod.mk.injEq, WalkRes.found.injEq] at h
        obtain ⟨⟨_, h2⟩, _⟩ := h
        omega
      · exact Nat.le_succ_of_le (ih _ _ _ _ _ h)

/-- Helper: in the superpage splice of ptw, every bit from 12 up to the
superpage shift is taken from the virtual address: the page-base side is
masked out there and the virtual-address side passes through. -/
theorem splice_testBit (pg_base vaddr L j : Nat) (h12 : 12 ≤ j)
    (hj : j < VPNiSHFT L) (hj64 : j < 64) :
    (((pg_base &&& wnot (2 ^ VPNiSHFT L - 1)) |||
      (vaddr &&& (2 ^ VPNiSHFT L - 1) &&& wnot PAGE_MASK)).testBit j) =
      vaddr.testBit j := by
  have hp : ¬ j < 12 := by omega
  simp [wnot, WORD_MASK, PAGE_MASK, Nat.testBit_or, Nat.testBit_and,
        Nat.testBit_xor, Nat.testBit_two_pow_sub_one, hj, hj64, h12, hp]
  have hW : Nat.testBit 18446744073709551615 j = true := by
    have h := Nat.testBit_two_pow_sub_one 64 j
    norm_num at h
    rw [h]
    exact decide_eq_true hj64
  have hX : Nat.testBit 18446744073709547520 j = true := by
    have h : Nat.testBit ((2 ^ 52 - 1) <<< 12) j =
        (decide (j ≥ 12) && Nat.testBit (2 ^ 52 - 1) (j - 12)) :=
      Nat.testBit_shiftLeft _
    rw [Nat.shiftLeft_eq] at h
    norm_num at h
    have h2 := Nat.testBit_two_pow_sub_one 52 (j - 12)
    norm_num at h2
    rw [h2] at h
    rw [h]
    have hj52 : j - 12 < 52 := by omega
    simp [h12, hj52]
  simp [hW, hX]

set_option maxHeartbeats 1000000 in
/-- C3: a leaf found by the first-stage walk at a superpage level L > 0
either has a page base aligned to the superpage size, in which case any
translated address ptw returns carries the virtual-address bits 12 .. 9L+11
and the recorded level L, or the misalignment makes ptw raise rather than
return a truncated address.  Stated outside virtualization (v, mprv and
hld_st clear). -/
theorem ptw_superpage (st : CPUState) (mem : Nat → Nat) (vaddr ty pte L : Nat)
    (st1 : CPUState)
    (hv : st.v = false) (hmprv : st.mstatus.mprv = false)
    (hhld : st.hld_st = false)
    (hcanon : (if (if st.satp.mode = 8 then (3 : Nat) else 4) = 4 then
        decide (sext 48 vaddr ≠ vaddr)
      else decide (sext 39 vaddr ≠ vaddr)) = false)
    (hwalk : ptw_walk st mem vaddr ty false
        ((if st.satp.mode = 8 then (3 : Nat) else 4) - 1) (st.satp.ppn <<< 12) =
        Except.ok (WalkRes.found pte L, st1))
    (hperm : check_permission st1 pte true vaddr ty false st.mode =
        Except.ok ())
    (hL : 0 < L) :
    (pte_ppn pte <<< 12 &&& (2 ^ VPNiSHFT L - 1) ≠ 0 →
       ∃ e, ptw st mem vaddr ty = Except.error e) ∧
    (∀ p st2, ptw st mem vaddr ty = Except.ok (p, st2) →
       st2.pt_level = L ∧
       ∀ j, 12 ≤ j → j < VPNiSHFT L → p.testBit j = vaddr.testBit j) := by
  have hred : ptw st mem vaddr ty =
      (if pte_ppn pte <<< 12 &&& (2 ^ VPNiSHFT L - 1) ≠ 0 then
         ptw_bad { st1 with pt_level := L } pte vaddr ty false st.mode
       else
         ptw_finish { st1 with pt_level := L } mem vaddr ty false pte
           (((pte_ppn pte <<< 12) &&& wnot (2 ^ VPNiSHFT L - 1)) |||
            (vaddr &&& (2 ^ VPNiSHFT L - 1) &&& wnot PAGE_MASK))) := by
    simp only [ptw, hmprv, Bool.false_eq_true, if_false, hhld, ite_self, hv,
               Bool.false_and, hcanon, hwalk, hperm, hL, if_true]
  have hL3 : L ≤ 3 := by
    have hle := ptw_walk_found_level_le mem vaddr ty false
        ((if st.satp.mode = 8 then (3 : Nat) else 4) - 1) st
        (st.satp.ppn <<< 12) pte L st1 hwalk
    by_cases h8 : st.satp.mode = 8 <;> simp [h8] at hle <;> omega
  constructor
  · intro hmis
    rw [hred, if_pos hmis]
    exact ptw_bad_errors _ _ _ _ _ _
  · intro p st2 hok
    by_cases hmis : pte_ppn pte <<< 12 &&& (2 ^ VPNiSHFT L - 1) ≠ 0
    · obtain ⟨e, he⟩ :=
        ptw_bad_errors { st1 with pt_level := L } pte vaddr ty false st.mode
      rw [hred, if_pos hmis, he] at hok
      exact Except.noConfusion hok
    · rw [hred, if_neg hmis] at hok
      simp only [ptw_finish, Bool.false_eq_true, if_false] at hok
      repeat' split at hok
      all_goals
        first
        | exact Except.noConfusion hok
        | (injection hok with h
           injection h with h1 h2
           subst h1
           subst h2
           refine ⟨rfl, fun j hj12 hjL => ?_⟩
           have hj64 : j < 64 := by
             unfold VPNiSHFT at hjL
             omega
           simpa [MEM_RET_OK] using splice_testBit (pte_ppn pte <<< 12)
             vaddr L j hj12 hjL hj64)

/-- Witness for C3: the concrete Sv39 walk over a 2 MiB superpage with an
aligned base, at level 1. -/
theorem ptw_superpage_witness :
    (pte_ppn ((0x80200 <<< 10) ||| 0xcb) <<< 12 &&& (2 ^ VPNiSHFT 1 - 1) ≠ 0 →
       ∃ e, ptw st_sv39 (mem_sv39_super 0x80200) 0x100ab123 MEM_TYPE_READ =
         Except.error e) ∧
    (∀ p st2,
       ptw st_sv39 (mem_sv39_super 0x80200) 0x100ab123 MEM_TYPE_READ =
         Except.ok (p, st2) →
       st2.pt_level = 1 ∧
       ∀ j, 12 ≤ j → j < VPNiSHFT 1 →
         p.testBit j = Nat.testBit 0x100ab123 j) :=
  ptw_superpage st_sv39 (mem_sv39_super 0x80200) 0x100ab123 MEM_TYPE_READ
    ((0x80200 <<< 10) ||| 0xcb) 1 st_sv39 rfl rfl rfl (by decide) rfl rfl
    (by decide)
